import Mathlib

/-!
# Skill-Frontend: roadmap state, route guards and the pages that drive them

A shallow embedding of the `RoadmapProvider` component
(`src/context/RoadmapContext.js`): its three pieces of React state, the five
asynchronous operations it exposes and the effect that reacts to
`isAuthenticated`; of the route guards and route table of `src/App.js`; and of
the handlers of the Dashboard, Roadmap and Profile pages that call them.
JavaScript values that cross the network are modelled by `JsVal`; a remote
call is a parameter `Outcome` saying how the axios promise settled;
`try / catch / finally` is modelled by the combinators `tryCatch` and
`tryFinally` over a small exception-and-state monad `Js`.
-/

namespace SkillFrontend

/-! ## JavaScript values -/

/-- JavaScript values as they arrive in a decoded response body. Numbers are
kept as integers: the code only ever tests a number for being zero. -/
inductive JsVal where
  | undefined : JsVal
  | null : JsVal
  | bool (b : Bool) : JsVal
  | num (n : Int) : JsVal
  | str (s : String) : JsVal
  | arr (items : List JsVal) : JsVal
  | obj (fields : List (String × JsVal)) : JsVal

namespace JsVal

instance : Inhabited JsVal := ⟨JsVal.undefined⟩

/-- The values `undefined` and `null`, on which a property read throws and on
which `?.` short-circuits. -/
def isNullish : JsVal → Bool
  | undefined => true
  | null => true
  | _ => false

/-- Own property `k` of a value that is neither `null` nor `undefined`:
the field of an object when present, `undefined` otherwise (the code reads
only the keys `data` and `message`, which no primitive or array carries). -/
def field (v : JsVal) (k : String) : JsVal :=
  match v with
  | obj fields => (fields.lookup k).getD undefined
  | _ => undefined

/-- Optional chaining `v?.k`. -/
def optProp (v : JsVal) (k : String) : JsVal :=
  if v.isNullish then undefined else v.field k

/-- JavaScript truthiness (the test made by `||` and `?:`). -/
def truthy : JsVal → Bool
  | undefined => false
  | null => false
  | bool b => b
  | num n => n != 0
  | str s => s != ""
  | arr _ => true
  | obj _ => true

/-- The operator `a || b`. -/
def or (a b : JsVal) : JsVal :=
  if a.truthy then a else b

/-- Holds of string values only. -/
def isString : JsVal → Bool
  | str _ => true
  | _ => false

/-- Holds of strings of positive length only. -/
def isNonEmptyString : JsVal → Bool
  | str s => s != ""
  | _ => false

end JsVal

/-! ## Remote calls -/

/-- The part of an axios response object the code reads: `status` and `data`. -/
structure Response where
  status : Nat
  data : JsVal

/-- What a `catch` clause can receive: the rejection value of axios, which
carries the response when the server answered and none on a transport
failure, or the `TypeError` of a property read on `null` / `undefined`. -/
inductive JsError where
  | axiosError (response : Option Response) : JsError
  | typeError : JsError

/-- The expression `error.response`. -/
def JsError.response : JsError → Option Response
  | axiosError r => r
  | typeError => none

/-- How the promise of one remote call settles. -/
inductive Outcome where
  | fulfilled (response : Response) : Outcome
  | rejected (response : Option Response) : Outcome

/-- One request handed to axios. -/
structure Request where
  method : String
  url : String
  body : JsVal

/-! ## State and effects -/

/-- The two kinds of toast. -/
inductive ToastKind where
  | success : ToastKind
  | error : ToastKind
  deriving DecidableEq

/-- One call of `toast.success` or `toast.error`. -/
structure Toast where
  kind : ToastKind
  text : JsVal

/-- The provider's state (`roadmap`, `currentWeek`, `loading`) together with
the traces of what it did to its collaborators: toasts shown, lines written by
`console.error`, requests sent.  Traces grow at the end. -/
structure World where
  roadmap : JsVal
  currentWeek : JsVal
  loading : Bool
  toasts : List Toast
  logs : List String
  requests : List Request

/-- State of a freshly mounted provider: the three `useState` initial values. -/
def World.initial : World :=
  { roadmap := JsVal.null, currentWeek := JsVal.null, loading := false,
    toasts := [], logs := [], requests := [] }

/-- Computations that may throw and that update the world; a throw keeps the
updates made before it. -/
def Js (α : Type) : Type := World → Except JsError α × World

namespace Js

/-- Normal completion with a value. -/
def ret {α : Type} (a : α) : Js α := fun w => (Except.ok a, w)

/-- Sequencing: the second part runs only when the first did not throw. -/
def andThen {α β : Type} (m : Js α) (f : α → Js β) : Js β := fun w =>
  match m w with
  | (Except.ok a, w1) => f a w1
  | (Except.error e, w1) => (Except.error e, w1)

instance : Monad Js where
  pure := ret
  bind := andThen

/-- The statement `throw e`. -/
def raise {α : Type} (e : JsError) : Js α := fun w => (Except.error e, w)

/-- The statement `try { body } catch (error) { handler error }`. -/
def tryCatch {α : Type} (body : Js α) (handler : JsError → Js α) : Js α := fun w =>
  match body w with
  | (Except.ok a, w1) => (Except.ok a, w1)
  | (Except.error e, w1) => handler e w1

/-- The statement `try { body } finally { cleanup }`: the cleanup runs on
every exit of the body, whose completion it keeps unless it throws itself. -/
def tryFinally {α : Type} (body : Js α) (cleanup : Js Unit) : Js α := fun w =>
  match body w with
  | (r, w1) =>
    match cleanup w1 with
    | (Except.ok _, w2) => (r, w2)
    | (Except.error e, w2) => (Except.error e, w2)

end Js

/-- The call `setRoadmap(v)`. -/
def setRoadmap (v : JsVal) : Js Unit := fun w => (Except.ok (), { w with roadmap := v })

/-- The call `setCurrentWeek(v)`. -/
def setCurrentWeek (v : JsVal) : Js Unit := fun w => (Except.ok (), { w with currentWeek := v })

/-- The call `setLoading(b)`. -/
def setLoading (b : Bool) : Js Unit := fun w => (Except.ok (), { w with loading := b })

/-- The call `toast.success(text)`. -/
def toastSuccess (text : JsVal) : Js Unit := fun w =>
  (Except.ok (), { w with toasts := w.toasts ++ [⟨ToastKind.success, text⟩] })

/-- The call `toast.error(text)`. -/
def toastError (text : JsVal) : Js Unit := fun w =>
  (Except.ok (), { w with toasts := w.toasts ++ [⟨ToastKind.error, text⟩] })

/-- The call `console.error(label, error)`; the label is what is recorded. -/
def consoleError (label : String) : Js Unit := fun w =>
  (Except.ok (), { w with logs := w.logs ++ [label] })

/-- An awaited axios call: the request is sent, then the promise settles as
`net` says, a rejection being thrown at the `await`. -/
def axiosCall (req : Request) (net : Outcome) : Js Response := fun w =>
  let w1 := { w with requests := w.requests ++ [req] }
  match net with
  | Outcome.fulfilled r => (Except.ok r, w1)
  | Outcome.rejected r => (Except.error (JsError.axiosError r), w1)

/-- The property read `v.k`, which throws a `TypeError` on `null` and
`undefined`. -/
def getProp (v : JsVal) (k : String) : Js JsVal :=
  if v.isNullish then Js.raise JsError.typeError else Js.ret (v.field k)

/-- The expression `error.response?.status !== 404`. -/
def statusIsNot404 (error : JsError) : Bool :=
  error.response.map Response.status != some 404

/-- The expression `error.response?.data?.message`. -/
def serverMessage (error : JsError) : JsVal :=
  match error.response with
  | none => JsVal.undefined
  | some r => r.data.optProp "message"

/-- The object a mutating operation returns: `{ success: true }` or
`{ success: false, message }`. -/
inductive OpResult where
  | success : OpResult
  | failure (message : JsVal) : OpResult

/-- The success envelope `{ data: T }` of the remote service: the payload of
a body that is an object with a `data` member, and nothing for any other body. -/
def payloadOf : JsVal → Option JsVal
  | JsVal.obj fields => fields.lookup "data"
  | _ => none

/-- A body is a well-formed envelope when it is an object with a `data` member. -/
def wellFormedEnvelope (body : JsVal) : Bool := (payloadOf body).isSome

/-! ## The operations of `RoadmapProvider` -/

/-- The function `fetchRoadmap` of `RoadmapContext.js`. -/
def fetchRoadmap (net : Outcome) : Js Unit :=
  Js.tryFinally
    (Js.tryCatch
      (do
        setLoading true
        let response ← axiosCall ⟨"GET", "/api/roadmaps", JsVal.undefined⟩ net
        let payload ← getProp response.data "data"
        setRoadmap payload)
      (fun error => do
        if statusIsNot404 error then
          consoleError "Failed to fetch roadmap:"
        setRoadmap JsVal.null))
    (setLoading false)

/-- The function `fetchCurrentWeek` of `RoadmapContext.js`. -/
def fetchCurrentWeek (net : Outcome) : Js Unit :=
  Js.tryCatch
    (do
      let response ← axiosCall ⟨"GET", "/api/roadmaps/current-week", JsVal.undefined⟩ net
      let payload ← getProp response.data "data"
      setCurrentWeek payload)
    (fun _ => consoleError "Failed to fetch current week:")

/-- The function `createRoadmap` of `RoadmapContext.js`. -/
def createRoadmap (targetRole : JsVal) (net : Outcome) : Js OpResult :=
  Js.tryFinally
    (Js.tryCatch
      (do
        setLoading true
        let response ← axiosCall
          ⟨"POST", "/api/roadmaps", JsVal.obj [("targetRole", targetRole)]⟩ net
        let payload ← getProp response.data "data"
        setRoadmap payload
        toastSuccess (JsVal.str "Roadmap generated successfully!")
        pure OpResult.success)
      (fun error => do
        let message := (serverMessage error).or (JsVal.str "Failed to create roadmap")
        toastError message
        pure (OpResult.failure message)))
    (setLoading false)

/-- The function `updateTaskCompletion` of `RoadmapContext.js`. -/
def updateTaskCompletion (weekId taskId : String) (completed : Bool) (net : Outcome) :
    Js OpResult :=
  Js.tryCatch
    (do
      let response ← axiosCall
        ⟨"PUT", "/api/roadmaps/tasks/" ++ weekId ++ "/" ++ taskId,
          JsVal.obj [("completed", JsVal.bool completed)]⟩ net
      let payload ← getProp response.data "data"
      setRoadmap payload
      toastSuccess (JsVal.str (if completed then "Task completed!" else "Task marked incomplete"))
      pure OpResult.success)
    (fun error => do
      let message := (serverMessage error).or (JsVal.str "Failed to update task")
      toastError message
      pure (OpResult.failure message))

/-- The function `deleteRoadmap` of `RoadmapContext.js`. -/
def deleteRoadmap (net : Outcome) : Js OpResult :=
  Js.tryCatch
    (do
      let _ ← axiosCall ⟨"DELETE", "/api/roadmaps", JsVal.undefined⟩ net
      setRoadmap JsVal.null
      setCurrentWeek JsVal.null
      toastSuccess (JsVal.str "Roadmap deleted successfully")
      pure OpResult.success)
    (fun error => do
      let message := (serverMessage error).or (JsVal.str "Failed to delete roadmap")
      toastError message
      pure (OpResult.failure message))

/-- The effect of `RoadmapProvider` that runs when `isAuthenticated` changes:
`if (isAuthenticated) { fetchRoadmap(); }`. -/
def authEffect (isAuthenticated : Bool) (net : Outcome) : Js Unit :=
  if isAuthenticated then fetchRoadmap net else pure ()

/-- Whether the promise was fulfilled. -/
def Outcome.isFulfilled : Outcome → Bool
  | Outcome.fulfilled _ => true
  | Outcome.rejected _ => false

/-- Whether the promise was fulfilled with a body on which the read
`response.data.data` does not throw, that is, a body other than `null` and
`undefined`. -/
def Outcome.bodyReadable : Outcome → Bool
  | Outcome.fulfilled r => !r.data.isNullish
  | Outcome.rejected _ => false

/-- Text of the failure notification as the specification words it: the
message carried by the failure response when it carries a non-empty one, the
fallback of the operation otherwise. -/
def expectedFailureText (resp : Option Response) (fallback : String) : JsVal :=
  match resp with
  | some ⟨_, JsVal.obj fields⟩ =>
    match fields.lookup "message" with
    | some (JsVal.str s) => if s = "" then JsVal.str fallback else JsVal.str s
    | some m => if m.truthy then m else JsVal.str fallback
    | none => JsVal.str fallback
  | _ => JsVal.str fallback

/-- Shape of the result of a mutating operation: `{ success: true }`, or
`{ success: false, message }` with a truthy message that is a non-empty string
unless the failure response itself carried a message that is not a string. -/
def ResultShape (net : Outcome) (res : OpResult) : Prop :=
  res = OpResult.success ∨
  ∃ m, res = OpResult.failure m ∧ m.truthy = true ∧
    (m.isNonEmptyString = true ∨
      ∃ resp, net = Outcome.rejected resp ∧ m = serverMessage (JsError.axiosError resp) ∧
        m.isString = false)

/-! ## Calls in flight -/

/-- Handing a request to axios: what an operation has done when it reaches
its `await`. -/
def axiosSend (req : Request) : Js Unit := fun w =>
  (Except.ok (), { w with requests := w.requests ++ [req] })

/-- Resuming at the `await` when the promise settles: the response on
fulfilment, a throw on rejection. -/
def awaitResponse (net : Outcome) : Js Response := fun w =>
  match net with
  | Outcome.fulfilled r => (Except.ok r, w)
  | Outcome.rejected r => (Except.error (JsError.axiosError r), w)

/-- The part of `fetchRoadmap` that runs at the call, up to its `await`. -/
def fetchRoadmap_issue : Js Unit := do
  setLoading true
  axiosSend ⟨"GET", "/api/roadmaps", JsVal.undefined⟩

/-- The part of `fetchRoadmap` that runs when its request settles: the rest of
the `try` block, the `catch` and the `finally`. -/
def fetchRoadmap_settle (net : Outcome) : Js Unit :=
  Js.tryFinally
    (Js.tryCatch
      (do
        let response ← awaitResponse net
        let payload ← getProp response.data "data"
        setRoadmap payload)
      (fun error => do
        if statusIsNot404 error then
          consoleError "Failed to fetch roadmap:"
        setRoadmap JsVal.null))
    (setLoading false)

/-- The part of `fetchCurrentWeek` that runs at the call, up to its `await`. -/
def fetchCurrentWeek_issue : Js Unit :=
  axiosSend ⟨"GET", "/api/roadmaps/current-week", JsVal.undefined⟩

/-- The part of `fetchCurrentWeek` that runs when its request settles. -/
def fetchCurrentWeek_settle (net : Outcome) : Js Unit :=
  Js.tryCatch
    (do
      let response ← awaitResponse net
      let payload ← getProp response.data "data"
      setCurrentWeek payload)
    (fun _ => consoleError "Failed to fetch current week:")

/-! ## Sequences of operations -/

/-- The value of `response.data.data` when the call was fulfilled and the read
does not throw. -/
def Outcome.payload : Outcome → Option JsVal
  | Outcome.fulfilled r => if r.data.isNullish then none else some (r.data.field "data")
  | Outcome.rejected _ => none

/-- One settled call of an operation of the provider. -/
inductive Call where
  | fetchRoadmap (net : Outcome) : Call
  | fetchCurrentWeek (net : Outcome) : Call
  | createRoadmap (targetRole : JsVal) (net : Outcome) : Call
  | updateTaskCompletion (weekId taskId : String) (completed : Bool) (net : Outcome) : Call
  | deleteRoadmap (net : Outcome) : Call

/-- The world after a call has settled. -/
def Call.run : Call → World → World
  | Call.fetchRoadmap net, w => (SkillFrontend.fetchRoadmap net w).2
  | Call.fetchCurrentWeek net, w => (SkillFrontend.fetchCurrentWeek net w).2
  | Call.createRoadmap targetRole net, w => (SkillFrontend.createRoadmap targetRole net w).2
  | Call.updateTaskCompletion weekId taskId completed net, w =>
    (SkillFrontend.updateTaskCompletion weekId taskId completed net w).2
  | Call.deleteRoadmap net, w => (SkillFrontend.deleteRoadmap net w).2

/-- The roadmap payload of the response to a call: the three operations whose
response is a roadmap have one when `response.data.data` can be read. -/
def Call.roadmapPayload : Call → Option JsVal
  | Call.fetchRoadmap net => net.payload
  | Call.createRoadmap _ net => net.payload
  | Call.updateTaskCompletion _ _ _ net => net.payload
  | Call.fetchCurrentWeek _ => none
  | Call.deleteRoadmap _ => none

/-- The world after a sequence of calls, each settled before the next starts. -/
def runCalls (cs : List Call) (w : World) : World :=
  cs.foldl (fun w1 c => c.run w1) w

/-- The invariant `completedTasks ≤ totalTasks` of a roadmap value, both
members being numbers. -/
def tasksWithinTotal (v : JsVal) : Bool :=
  match v.field "completedTasks", v.field "totalTasks" with
  | JsVal.num c, JsVal.num t => decide (c ≤ t)
  | _, _ => false

/-! ## Route guards (`src/App.js`) -/

/-- What a route renders: the loading placeholder, a page, or a `Navigate`
element. -/
inductive Element where
  | spinner : Element
  | page (name : String) : Element
  | navigate (target : String) : Element
  deriving DecidableEq

/-- The component `ProtectedRoute` of `App.js`; `isAuthenticated` and `loading`
are what `useAuth()` returns. -/
def ProtectedRoute (isAuthenticated loading : Bool) (children : Element) : Element :=
  if loading then Element.spinner
  else if isAuthenticated then children else Element.navigate "/login"

/-- The component `PublicRoute` of `App.js`. -/
def PublicRoute (isAuthenticated loading : Bool) (children : Element) : Element :=
  if loading then Element.spinner
  else if !isAuthenticated then children else Element.navigate "/dashboard"

/-- The route table of `AppContent`: the element of the route whose path is
`path`, and nothing for a path that has no route. -/
def routes (isAuthenticated loading : Bool) (path : String) : Option Element :=
  if path = "/login" then some (PublicRoute isAuthenticated loading (Element.page "Login"))
  else if path = "/register" then
    some (PublicRoute isAuthenticated loading (Element.page "Register"))
  else if path = "/dashboard" then
    some (ProtectedRoute isAuthenticated loading (Element.page "Dashboard"))
  else if path = "/roadmap" then
    some (ProtectedRoute isAuthenticated loading (Element.page "Roadmap"))
  else if path = "/profile" then
    some (ProtectedRoute isAuthenticated loading (Element.page "Profile"))
  else if path = "/" then some (Element.navigate "/dashboard")
  else none

/-- The paths that have a route in `AppContent`. -/
def definedPaths : List String :=
  ["/login", "/register", "/dashboard", "/roadmap", "/profile", "/"]

/-- Following `Navigate` elements from `path`: the element that is finally
rendered and the number of redirects taken to reach it.  At most `fuel`
redirects are followed; the result is `none` when more would be needed or when
a path has no route. -/
def followRedirects (isAuthenticated loading : Bool) : Nat → String → Option (Element × Nat)
  | 0, path =>
    match routes isAuthenticated loading path with
    | none => none
    | some (Element.navigate _) => none
    | some e => some (e, 0)
  | fuel + 1, path =>
    match routes isAuthenticated loading path with
    | none => none
    | some (Element.navigate target) =>
      (followRedirects isAuthenticated loading fuel target).map (fun r => (r.1, r.2 + 1))
    | some e => some (e, 0)

/-! ## The Dashboard page (`src/pages/Dashboard.js`) -/

/-- The effect of `Dashboard` that runs when `user` changes.  It runs to its
end without waiting for the calls it starts; `roadmap` is the value of the
provider's state that the render captured. -/
def dashboardEffect (user : JsVal) : Js Unit := fun w =>
  let roadmap := w.roadmap
  if user.truthy then
    (do
      fetchRoadmap_issue
      if roadmap.truthy then
        fetchCurrentWeek_issue) w
  else (Except.ok (), w)

/-! ## The Roadmap page (`src/pages/Roadmap.js`) -/

/-- A phase of a roadmap: the members the data model gives it. -/
structure Phase where
  order : Int
  name : String
  description : String
  skills : List String
  progress : Int
  deriving DecidableEq

/-- A weekly goal of a roadmap: its identifier, its week number, the name of
its phase and its progress members. -/
structure WeeklyGoal where
  id : String
  weekNumber : Int
  phase : String
  progress : Int
  completed : Bool
  deriving DecidableEq

/-- The two lists of a roadmap that the page joins. -/
structure RoadmapData where
  phases : List Phase
  weeklyGoals : List WeeklyGoal

/-- The expression `roadmap.phases[selectedPhase]`, which is `undefined` past
the end of the list. -/
def currentPhase (roadmap : RoadmapData) (selectedPhase : Nat) : Option Phase :=
  roadmap.phases[selectedPhase]?

/-- The expression
`roadmap.weeklyGoals.filter(w => w.phase === currentPhase?.name)`. -/
def phaseWeeks (roadmap : RoadmapData) (selectedPhase : Nat) : List WeeklyGoal :=
  roadmap.weeklyGoals.filter
    (fun w => some w.phase == (currentPhase roadmap selectedPhase).map Phase.name)

/-! ## The Profile page (`src/pages/Profile.js`) -/

/-- The state `formData` of the page. -/
structure FormData where
  name : JsVal
  targetRole : JsVal
  experienceLevel : JsVal
  weeklyTimeAvailability : JsVal

/-- The state of the Profile page (`formData`, `skills`, `editing`,
`generating`), the traces of its calls of `updateUser` and `navigate`, and the
provider it uses, whose world also holds the toasts and requests of the page. -/
structure ProfilePage where
  formData : FormData
  skills : List JsVal
  editing : Bool
  generating : Bool
  userUpdates : List JsVal
  navigations : List String
  world : World

/-- Computations of the Profile page. -/
def PageJs (α : Type) : Type := ProfilePage → Except JsError α × ProfilePage

namespace PageJs

/-- Normal completion with a value. -/
def ret {α : Type} (a : α) : PageJs α := fun p => (Except.ok a, p)

/-- Sequencing: the second part runs only when the first did not throw. -/
def andThen {α β : Type} (m : PageJs α) (f : α → PageJs β) : PageJs β := fun p =>
  match m p with
  | (Except.ok a, p1) => f a p1
  | (Except.error e, p1) => (Except.error e, p1)

instance : Monad PageJs where
  pure := ret
  bind := andThen

/-- The statement `try { body } catch (error) { handler error }`. -/
def tryCatch {α : Type} (body : PageJs α) (handler : JsError → PageJs α) : PageJs α := fun p =>
  match body p with
  | (Except.ok a, p1) => (Except.ok a, p1)
  | (Except.error e, p1) => handler e p1

/-- A computation on the provider's world, run from the page. -/
def lift {α : Type} (m : Js α) : PageJs α := fun p =>
  match m p.world with
  | (r, w1) => (r, { p with world := w1 })

end PageJs

/-- The call `setEditing(b)`. -/
def setEditing (b : Bool) : PageJs Unit := fun p => (Except.ok (), { p with editing := b })

/-- The call `setGenerating(b)`. -/
def setGenerating (b : Bool) : PageJs Unit := fun p =>
  (Except.ok (), { p with generating := b })

/-- The call `updateUser(v)`. -/
def updateUser (v : JsVal) : PageJs Unit := fun p =>
  (Except.ok (), { p with userUpdates := p.userUpdates ++ [v] })

/-- The call `navigate(path)`. -/
def navigate (path : String) : PageJs Unit := fun p =>
  (Except.ok (), { p with navigations := p.navigations ++ [path] })

/-- The object `{ ...formData, skills }`. -/
def profileBody (p : ProfilePage) : JsVal :=
  JsVal.obj [("name", p.formData.name), ("targetRole", p.formData.targetRole),
    ("experienceLevel", p.formData.experienceLevel),
    ("weeklyTimeAvailability", p.formData.weeklyTimeAvailability),
    ("skills", JsVal.arr p.skills)]

/-- The member `success` of a result object. -/
def OpResult.isSuccess : OpResult → Bool
  | OpResult.success => true
  | OpResult.failure _ => false

/-- The function `handleSaveProfile` of `Profile.js`. -/
def handleSaveProfile (net : Outcome) : PageJs Unit := fun p =>
  PageJs.tryCatch
    (do
      let response ← PageJs.lift (axiosCall ⟨"PUT", "/api/users/profile", profileBody p⟩ net)
      let payload ← PageJs.lift (getProp response.data "data")
      updateUser payload
      PageJs.lift (toastSuccess (JsVal.str "Profile updated successfully!"))
      setEditing false)
    (fun _ => PageJs.lift (toastError (JsVal.str "Failed to update profile"))) p

/-- The function `handleGenerateRoadmap` of `Profile.js`; `saveNet` settles
the profile request and `createNet` the roadmap request. -/
def handleGenerateRoadmap (saveNet createNet : Outcome) : PageJs Unit := fun p =>
  if !p.formData.targetRole.truthy then
    PageJs.lift (toastError (JsVal.str "Please select a target role first")) p
  else if p.skills.length == 0 then
    PageJs.lift (toastError (JsVal.str "Please add at least one current skill")) p
  else
    (do
      setGenerating true
      handleSaveProfile saveNet
      let result ← PageJs.lift (createRoadmap p.formData.targetRole createNet)
      setGenerating false
      if result.isSuccess then
        navigate "/roadmap") p

/-! ## The Profile handlers between their awaits -/

/-- The part of `createRoadmap` that runs at the call, up to its `await`. -/
def createRoadmap_issue (targetRole : JsVal) : Js Unit := do
  setLoading true
  axiosSend ⟨"POST", "/api/roadmaps", JsVal.obj [("targetRole", targetRole)]⟩

/-- The part of `createRoadmap` that runs when its request settles: the rest
of the `try` block, the `catch` and the `finally`. -/
def createRoadmap_settle (net : Outcome) : Js OpResult :=
  Js.tryFinally
    (Js.tryCatch
      (do
        let response ← awaitResponse net
        let payload ← getProp response.data "data"
        setRoadmap payload
        toastSuccess (JsVal.str "Roadmap generated successfully!")
        pure OpResult.success)
      (fun error => do
        let message := (serverMessage error).or (JsVal.str "Failed to create roadmap")
        toastError message
        pure (OpResult.failure message)))
    (setLoading false)

/-- The part of `handleSaveProfile` that runs at the call, up to its `await`. -/
def handleSaveProfile_issue : PageJs Unit := fun p =>
  PageJs.lift (axiosSend ⟨"PUT", "/api/users/profile", profileBody p⟩) p

/-- The part of `handleSaveProfile` that runs when its request settles: the
rest of the `try` block and the `catch`. -/
def handleSaveProfile_settle (net : Outcome) : PageJs Unit :=
  PageJs.tryCatch
    (do
      let response ← PageJs.lift (awaitResponse net)
      let payload ← PageJs.lift (getProp response.data "data")
      updateUser payload
      PageJs.lift (toastSuccess (JsVal.str "Profile updated successfully!"))
      setEditing false)
    (fun _ => PageJs.lift (toastError (JsVal.str "Failed to update profile")))

/-- The part of `handleGenerateRoadmap` that runs at the click: the two guards,
`setGenerating(true)` and the call of `handleSaveProfile` up to its `await`.
The value says whether the handler is now waiting for the profile request
(`true`) or has returned at a guard (`false`). -/
def handleGenerateRoadmap_start : PageJs Bool := fun p =>
  if !p.formData.targetRole.truthy then
    (do
      PageJs.lift (toastError (JsVal.str "Please select a target role first"))
      pure false) p
  else if p.skills.length == 0 then
    (do
      PageJs.lift (toastError (JsVal.str "Please add at least one current skill"))
      pure false) p
  else
    (do
      setGenerating true
      handleSaveProfile_issue
      pure true) p

/-- The part of `handleGenerateRoadmap` that runs when the profile request
settles: the rest of `handleSaveProfile`, then the call of `createRoadmap` up
to its `await`. -/
def handleGenerateRoadmap_afterSave (saveNet : Outcome) : PageJs Unit := fun p =>
  (do
    handleSaveProfile_settle saveNet
    PageJs.lift (createRoadmap_issue p.formData.targetRole)) p

/-- The part of `handleGenerateRoadmap` that runs when the creation request
settles: the rest of `createRoadmap`, `setGenerating(false)` and the
navigation. -/
def handleGenerateRoadmap_afterCreate (createNet : Outcome) : PageJs Unit := do
  let result ← PageJs.lift (createRoadmap_settle createNet)
  setGenerating false
  if result.isSuccess then
    navigate "/roadmap"

/-! ## Sample data -/

/-- A roadmap of two phases and three weekly goals. -/
def sampleRoadmapData : RoadmapData :=
  { phases := [⟨1, "Foundations", "Core skills", ["HTML"], 50⟩,
      ⟨2, "Projects", "Build things", ["React"], 0⟩],
    weeklyGoals := [⟨"w1", 1, "Foundations", 100, true⟩, ⟨"w2", 2, "Projects", 0, false⟩,
      ⟨"w3", 3, "Foundations", 0, false⟩] }

/-- A Profile page with a target role and one skill, on a fresh provider. -/
def sampleProfilePage : ProfilePage :=
  { formData := ⟨JsVal.str "Asha", JsVal.str "Backend Developer", JsVal.str "beginner",
      JsVal.num 10⟩,
    skills := [JsVal.obj [("name", JsVal.str "SQL"), ("level", JsVal.str "beginner")]],
    editing := false, generating := false, userUpdates := [], navigations := [],
    world := World.initial }


/-- A roadmap as the server sends it. -/
def sampleRoadmap : JsVal :=
  JsVal.obj [("targetRole", JsVal.str "Backend Developer"), ("progress", JsVal.num 50),
    ("completedTasks", JsVal.num 2), ("totalTasks", JsVal.num 4)]

/-- A `200` response whose envelope carries `sampleRoadmap`. -/
def sampleResponse : Response := ⟨200, JsVal.obj [("data", sampleRoadmap)]⟩

/-- A provider holding an older roadmap and a current-week projection. -/
def sampleWorld : World :=
  { World.initial with
    roadmap := JsVal.obj [("targetRole", JsVal.str "Data Analyst"), ("progress", JsVal.num 25)],
    currentWeek := JsVal.obj [("currentWeek", JsVal.num 3)] }

/-! ## Unfolding lemmas -/

theorem Js.bind_eq {α β : Type} (m : Js α) (f : α → Js β) : (m >>= f) = Js.andThen m f := rfl

theorem Js.pure_eq {α : Type} (a : α) : (pure a : Js α) = Js.ret a := rfl

/-- Reading `response.data.data` off a well-formed envelope yields its payload. -/
theorem getProp_data_of_payload {body R : JsVal} (h : payloadOf body = some R) :
    getProp body "data" = Js.ret R := by
  cases body <;> simp [payloadOf] at h
  simp [getProp, JsVal.isNullish, JsVal.field, h]

/-- The code's `error.response?.data?.message || fallback` is the text the
specification describes. -/
theorem serverMessage_or_eq (resp : Option Response) (fallback : String) :
    (serverMessage (JsError.axiosError resp)).or (JsVal.str fallback)
      = expectedFailureText resp fallback := by
  rcases resp with _ | ⟨st, body⟩
  · rfl
  · cases body <;> try rfl
    rename_i fields
    simp only [serverMessage, JsError.response, JsVal.optProp, JsVal.isNullish, JsVal.field,
      expectedFailureText]
    cases hm : fields.lookup "message" with
    | none => rfl
    | some m =>
      cases m <;> simp [JsVal.or, JsVal.truthy]

/-- A fallback that is a non-empty string makes `a || fallback` truthy, and a
non-empty string unless `a` is a truthy value that is not a string. -/
theorem or_fallback_shape (a : JsVal) (fallback : String) (hf : fallback ≠ "") :
    (a.or (JsVal.str fallback)).truthy = true ∧
    ((a.or (JsVal.str fallback)).isNonEmptyString = true ∨
      (a.or (JsVal.str fallback) = a ∧ a.isString = false)) := by
  cases a <;> simp [JsVal.or, JsVal.truthy, JsVal.isNonEmptyString, JsVal.isString, hf]
  · rename_i b
    cases b <;> simp [JsVal.truthy, JsVal.isNonEmptyString, hf]
  · rename_i n
    by_cases hn : n = 0 <;> simp [hn, JsVal.truthy, JsVal.isNonEmptyString, hf]
  · rename_i t
    by_cases ht : t = "" <;> simp [ht, JsVal.truthy, JsVal.isNonEmptyString, hf]

/-! ## Failed mutations -/

/-- C1: for createRoadmap, updateTaskCompletion and deleteRoadmap, whatever the
prior world and however the remote call failed (a response of any status and
body, or no response at all), `roadmap` and `currentWeek` after the operation
are the values they had before it. -/
theorem failed_mutation_keeps_roadmap_and_currentWeek (w : World) (resp : Option Response)
    (targetRole : JsVal) (weekId taskId : String) (completed : Bool) :
    ((createRoadmap targetRole (Outcome.rejected resp) w).2.roadmap = w.roadmap ∧
      (createRoadmap targetRole (Outcome.rejected resp) w).2.currentWeek = w.currentWeek) ∧
    ((updateTaskCompletion weekId taskId completed (Outcome.rejected resp) w).2.roadmap
        = w.roadmap ∧
      (updateTaskCompletion weekId taskId completed (Outcome.rejected resp) w).2.currentWeek
        = w.currentWeek) ∧
    ((deleteRoadmap (Outcome.rejected resp) w).2.roadmap = w.roadmap ∧
      (deleteRoadmap (Outcome.rejected resp) w).2.currentWeek = w.currentWeek) := by
  simp [createRoadmap, updateTaskCompletion, deleteRoadmap, Js.tryFinally, Js.tryCatch,
    Js.bind_eq, Js.pure_eq, Js.andThen, Js.ret, axiosCall, setLoading, toastError]

/-! ## Successful calls -/

/-- C2: when the PUT of updateTaskCompletion is answered by an envelope with
payload `R`, the new roadmap is `R` whatever the old one was, `currentWeek` is
untouched, one success toast is added whose text is "Task completed!" for
`completed = true` and "Task marked incomplete" for `completed = false`, and
the result is `{ success: true }`. -/
theorem updateTaskCompletion_success (w : World) (weekId taskId : String) (completed : Bool)
    (r : Response) (R : JsVal) (hR : payloadOf r.data = some R) :
    (updateTaskCompletion weekId taskId completed (Outcome.fulfilled r) w).1
        = Except.ok OpResult.success ∧
    (updateTaskCompletion weekId taskId completed (Outcome.fulfilled r) w).2.roadmap = R ∧
    (updateTaskCompletion weekId taskId completed (Outcome.fulfilled r) w).2.currentWeek
        = w.currentWeek ∧
    (updateTaskCompletion weekId taskId completed (Outcome.fulfilled r) w).2.toasts
        = w.toasts ++ [⟨ToastKind.success,
            JsVal.str (if completed then "Task completed!" else "Task marked incomplete")⟩] := by
  simp [updateTaskCompletion, Js.tryCatch, Js.bind_eq, Js.pure_eq, Js.andThen, Js.ret,
    axiosCall, getProp_data_of_payload hR, setRoadmap, toastSuccess]

/-- Witness of C2: marking a task complete on a provider that holds an older
roadmap. -/
theorem updateTaskCompletion_success_witness :
    payloadOf sampleResponse.data = some sampleRoadmap ∧
    (updateTaskCompletion "week1" "task3" true (Outcome.fulfilled sampleResponse)
        sampleWorld).1 = Except.ok OpResult.success ∧
    (updateTaskCompletion "week1" "task3" true (Outcome.fulfilled sampleResponse)
        sampleWorld).2.roadmap = sampleRoadmap ∧
    (updateTaskCompletion "week1" "task3" true (Outcome.fulfilled sampleResponse)
        sampleWorld).2.currentWeek = sampleWorld.currentWeek ∧
    (updateTaskCompletion "week1" "task3" true (Outcome.fulfilled sampleResponse)
        sampleWorld).2.toasts
      = sampleWorld.toasts ++ [⟨ToastKind.success, JsVal.str "Task completed!"⟩] :=
  ⟨rfl, updateTaskCompletion_success sampleWorld "week1" "task3" true sampleResponse
    sampleRoadmap rfl⟩

/-- C3: when the POST of createRoadmap is answered by an envelope with payload
`R`, the request sent is a POST to `/api/roadmaps` with body `{ targetRole }`,
the new roadmap is `R` (so its `targetRole` is that of `R`), one success toast
is added and the result is `{ success: true }`. -/
theorem createRoadmap_success (w : World) (targetRole : JsVal) (r : Response) (R : JsVal)
    (hR : payloadOf r.data = some R) :
    (createRoadmap targetRole (Outcome.fulfilled r) w).1 = Except.ok OpResult.success ∧
    (createRoadmap targetRole (Outcome.fulfilled r) w).2.requests
        = w.requests ++ [⟨"POST", "/api/roadmaps", JsVal.obj [("targetRole", targetRole)]⟩] ∧
    (createRoadmap targetRole (Outcome.fulfilled r) w).2.roadmap = R ∧
    ((createRoadmap targetRole (Outcome.fulfilled r) w).2.roadmap).field "targetRole"
        = R.field "targetRole" ∧
    (createRoadmap targetRole (Outcome.fulfilled r) w).2.toasts
        = w.toasts ++ [⟨ToastKind.success, JsVal.str "Roadmap generated successfully!"⟩] := by
  simp [createRoadmap, Js.tryFinally, Js.tryCatch, Js.bind_eq, Js.pure_eq, Js.andThen, Js.ret,
    axiosCall, getProp_data_of_payload hR, setRoadmap, setLoading, toastSuccess]

/-- Witness of C3: creating a roadmap for the role "Backend Developer". -/
theorem createRoadmap_success_witness :
    payloadOf sampleResponse.data = some sampleRoadmap ∧
    (createRoadmap (JsVal.str "Backend Developer") (Outcome.fulfilled sampleResponse)
        World.initial).1 = Except.ok OpResult.success ∧
    (createRoadmap (JsVal.str "Backend Developer") (Outcome.fulfilled sampleResponse)
        World.initial).2.requests
      = World.initial.requests ++
        [⟨"POST", "/api/roadmaps", JsVal.obj [("targetRole", JsVal.str "Backend Developer")]⟩] ∧
    (createRoadmap (JsVal.str "Backend Developer") (Outcome.fulfilled sampleResponse)
        World.initial).2.roadmap = sampleRoadmap ∧
    ((createRoadmap (JsVal.str "Backend Developer") (Outcome.fulfilled sampleResponse)
        World.initial).2.roadmap).field "targetRole" = sampleRoadmap.field "targetRole" ∧
    (createRoadmap (JsVal.str "Backend Developer") (Outcome.fulfilled sampleResponse)
        World.initial).2.toasts
      = World.initial.toasts ++
        [⟨ToastKind.success, JsVal.str "Roadmap generated successfully!"⟩] :=
  ⟨rfl, createRoadmap_success World.initial (JsVal.str "Backend Developer") sampleResponse
    sampleRoadmap rfl⟩

/-- C4: when the DELETE of deleteRoadmap is fulfilled, whatever the prior
roadmap and current week and whatever the response, both become `null`, one
success toast is added and the result is `{ success: true }`. -/
theorem deleteRoadmap_success (w : World) (r : Response) :
    (deleteRoadmap (Outcome.fulfilled r) w).1 = Except.ok OpResult.success ∧
    (deleteRoadmap (Outcome.fulfilled r) w).2.roadmap = JsVal.null ∧
    (deleteRoadmap (Outcome.fulfilled r) w).2.currentWeek = JsVal.null ∧
    (deleteRoadmap (Outcome.fulfilled r) w).2.toasts
        = w.toasts ++ [⟨ToastKind.success, JsVal.str "Roadmap deleted successfully"⟩] := by
  simp [deleteRoadmap, Js.tryCatch, Js.bind_eq, Js.pure_eq, Js.andThen, Js.ret, axiosCall,
    setRoadmap, setCurrentWeek, toastSuccess]

/-- C5: when the GET of fetchRoadmap is answered by an envelope with payload
`R`, the new roadmap is `R` whatever the old one was, `currentWeek` is
untouched, no toast is shown and nothing is thrown. -/
theorem fetchRoadmap_success (w : World) (r : Response) (R : JsVal)
    (hR : payloadOf r.data = some R) :
    (fetchRoadmap (Outcome.fulfilled r) w).1 = Except.ok () ∧
    (fetchRoadmap (Outcome.fulfilled r) w).2.roadmap = R ∧
    (fetchRoadmap (Outcome.fulfilled r) w).2.currentWeek = w.currentWeek ∧
    (fetchRoadmap (Outcome.fulfilled r) w).2.toasts = w.toasts := by
  simp [fetchRoadmap, Js.tryFinally, Js.tryCatch, Js.bind_eq, Js.andThen, Js.ret,
    axiosCall, getProp_data_of_payload hR, setRoadmap, setLoading]

/-- Witness of C5: a fetch that replaces an older roadmap. -/
theorem fetchRoadmap_success_witness :
    payloadOf sampleResponse.data = some sampleRoadmap ∧
    (fetchRoadmap (Outcome.fulfilled sampleResponse) sampleWorld).1 = Except.ok () ∧
    (fetchRoadmap (Outcome.fulfilled sampleResponse) sampleWorld).2.roadmap = sampleRoadmap ∧
    (fetchRoadmap (Outcome.fulfilled sampleResponse) sampleWorld).2.currentWeek
      = sampleWorld.currentWeek ∧
    (fetchRoadmap (Outcome.fulfilled sampleResponse) sampleWorld).2.toasts
      = sampleWorld.toasts :=
  ⟨rfl, fetchRoadmap_success sampleWorld sampleResponse sampleRoadmap rfl⟩

/-! ## Failed fetches -/

/-- C6: when fetchRoadmap is answered with status 404, whatever the prior
world and the body of the answer, the roadmap becomes `null`, no toast is
shown, nothing is logged and nothing is thrown; a second 404 applied to the
resulting world leaves the roadmap `null`. -/
theorem fetchRoadmap_not_found (w : World) (body body2 : JsVal) :
    (fetchRoadmap (Outcome.rejected (some ⟨404, body⟩)) w).1 = Except.ok () ∧
    (fetchRoadmap (Outcome.rejected (some ⟨404, body⟩)) w).2.roadmap = JsVal.null ∧
    (fetchRoadmap (Outcome.rejected (some ⟨404, body⟩)) w).2.toasts = w.toasts ∧
    (fetchRoadmap (Outcome.rejected (some ⟨404, body⟩)) w).2.logs = w.logs ∧
    (fetchRoadmap (Outcome.rejected (some ⟨404, body2⟩))
        (fetchRoadmap (Outcome.rejected (some ⟨404, body⟩)) w).2).2.roadmap = JsVal.null := by
  simp [fetchRoadmap, Js.tryFinally, Js.tryCatch, Js.bind_eq, Js.pure_eq, Js.andThen, Js.ret,
    axiosCall, setRoadmap, setLoading, statusIsNot404, JsError.response, consoleError]

/-- C7 as stated fails: a fetch answered with status 500 on a provider that
holds a roadmap leaves `roadmap` at `null`, not at its prior value. -/
theorem fetchRoadmap_server_error_drops_roadmap :
    statusIsNot404 (JsError.axiosError (some ⟨500, JsVal.undefined⟩)) = true ∧
    (fetchRoadmap (Outcome.rejected (some ⟨500, JsVal.undefined⟩)) sampleWorld).2.roadmap
      = JsVal.null ∧
    (fetchRoadmap (Outcome.rejected (some ⟨500, JsVal.undefined⟩)) sampleWorld).2.roadmap
      ≠ sampleWorld.roadmap := by
  refine ⟨rfl, rfl, ?_⟩
  simp [fetchRoadmap, Js.tryFinally, Js.tryCatch, Js.bind_eq, Js.pure_eq, Js.andThen, Js.ret,
    axiosCall, setRoadmap, setLoading, statusIsNot404, JsError.response, consoleError,
    sampleWorld]

/-- C7, amended: when fetchRoadmap fails with anything other than a 404
(another status, or no response at all), the failure is logged once, no toast
is shown, nothing is thrown, `currentWeek` is untouched and `roadmap` becomes
`null`. -/
theorem fetchRoadmap_other_failure (w : World) (resp : Option Response)
    (h : resp.map Response.status ≠ some 404) :
    (fetchRoadmap (Outcome.rejected resp) w).1 = Except.ok () ∧
    (fetchRoadmap (Outcome.rejected resp) w).2.logs = w.logs ++ ["Failed to fetch roadmap:"] ∧
    (fetchRoadmap (Outcome.rejected resp) w).2.toasts = w.toasts ∧
    (fetchRoadmap (Outcome.rejected resp) w).2.currentWeek = w.currentWeek ∧
    (fetchRoadmap (Outcome.rejected resp) w).2.roadmap = JsVal.null := by
  simp [fetchRoadmap, Js.tryFinally, Js.tryCatch, Js.bind_eq, Js.pure_eq, Js.andThen, Js.ret,
    axiosCall, setRoadmap, setLoading, statusIsNot404, JsError.response, consoleError, h]

/-- Witness of amended C7: a transport failure, which has no response. -/
theorem fetchRoadmap_other_failure_witness :
    (none : Option Response).map Response.status ≠ some 404 ∧
    (fetchRoadmap (Outcome.rejected none) sampleWorld).1 = Except.ok () ∧
    (fetchRoadmap (Outcome.rejected none) sampleWorld).2.logs
      = sampleWorld.logs ++ ["Failed to fetch roadmap:"] ∧
    (fetchRoadmap (Outcome.rejected none) sampleWorld).2.toasts = sampleWorld.toasts ∧
    (fetchRoadmap (Outcome.rejected none) sampleWorld).2.currentWeek
      = sampleWorld.currentWeek ∧
    (fetchRoadmap (Outcome.rejected none) sampleWorld).2.roadmap = JsVal.null :=
  ⟨by decide, fetchRoadmap_other_failure sampleWorld none (by decide)⟩

/-! ## Results and notifications of the mutating operations -/

/-- C8 as stated fails: a DELETE fulfilled with an empty body and a POST
fulfilled with a body that has no `data` member both return
`{ success: true }` although neither body is a `{ data: T }` envelope; and a
rejection whose body carries the message `42` returns that number as
`message`, which is not a string. -/
theorem mutation_result_not_envelope_bound :
    ((deleteRoadmap (Outcome.fulfilled ⟨204, JsVal.str ""⟩) sampleWorld).1
        = Except.ok OpResult.success ∧
      wellFormedEnvelope (JsVal.str "") = false) ∧
    ((createRoadmap (JsVal.str "Backend Developer") (Outcome.fulfilled ⟨200, JsVal.obj []⟩)
        sampleWorld).1 = Except.ok OpResult.success ∧
      wellFormedEnvelope (JsVal.obj []) = false) ∧
    ((updateTaskCompletion "week1" "task3" true
        (Outcome.rejected (some ⟨400, JsVal.obj [("message", JsVal.num 42)]⟩)) sampleWorld).1
        = Except.ok (OpResult.failure (JsVal.num 42)) ∧
      (JsVal.num 42).isNonEmptyString = false) :=
  ⟨⟨rfl, rfl⟩, ⟨rfl, rfl⟩, ⟨rfl, rfl⟩⟩

/-- C8, amended: whatever the remote outcome, createRoadmap,
updateTaskCompletion and deleteRoadmap return normally, with a result of the
shape `ResultShape`.  createRoadmap and updateTaskCompletion return
`{ success: true }` exactly when the call was fulfilled with a body other than
`null` and `undefined` (so in particular for every well-formed envelope);
deleteRoadmap returns `{ success: true }` exactly when the call was
fulfilled. -/
theorem mutation_result_total (w : World) (targetRole : JsVal) (weekId taskId : String)
    (completed : Bool) (net : Outcome) :
    (∃ res, (createRoadmap targetRole net w).1 = Except.ok res ∧ ResultShape net res ∧
      (res = OpResult.success ↔ net.bodyReadable = true)) ∧
    (∃ res, (updateTaskCompletion weekId taskId completed net w).1 = Except.ok res ∧
      ResultShape net res ∧ (res = OpResult.success ↔ net.bodyReadable = true)) ∧
    (∃ res, (deleteRoadmap net w).1 = Except.ok res ∧ ResultShape net res ∧
      (res = OpResult.success ↔ net.isFulfilled = true)) ∧
    (∀ r, net = Outcome.fulfilled r → wellFormedEnvelope r.data = true →
      net.bodyReadable = true) := by
  have shape : ∀ (resp : Option Response) (fallback : String), fallback ≠ "" →
      ResultShape (Outcome.rejected resp)
        (OpResult.failure ((serverMessage (JsError.axiosError resp)).or (JsVal.str fallback))) := by
    intro resp fallback hf
    obtain ⟨h1, h2⟩ := or_fallback_shape (serverMessage (JsError.axiosError resp)) fallback hf
    refine Or.inr ⟨_, rfl, h1, ?_⟩
    rcases h2 with h2 | ⟨h2, h3⟩
    · exact Or.inl h2
    · exact Or.inr ⟨resp, rfl, h2, by rw [h2]; exact h3⟩
  have thrown : ∀ (r : Response) (fallback : String), fallback ≠ "" →
      ResultShape (Outcome.fulfilled r)
        (OpResult.failure ((serverMessage JsError.typeError).or (JsVal.str fallback))) := by
    intro r fallback hf
    refine Or.inr ⟨_, rfl, ?_, Or.inl ?_⟩ <;>
      simp [serverMessage, JsError.response, JsVal.or, JsVal.truthy, JsVal.isNonEmptyString, hf]
  cases net with
  | rejected resp =>
    refine ⟨⟨_, ?_, shape resp "Failed to create roadmap" (by decide), ?_⟩,
      ⟨_, ?_, shape resp "Failed to update task" (by decide), ?_⟩,
      ⟨_, ?_, shape resp "Failed to delete roadmap" (by decide), ?_⟩, ?_⟩ <;>
      simp [createRoadmap, updateTaskCompletion, deleteRoadmap, Js.tryFinally, Js.tryCatch,
        Js.bind_eq, Js.pure_eq, Js.andThen, Js.ret, axiosCall, setLoading, toastError,
        Outcome.bodyReadable, Outcome.isFulfilled]
  | fulfilled r =>
    obtain ⟨st, body⟩ := r
    refine ⟨?_, ?_, ⟨OpResult.success, ?_, Or.inl rfl, ?_⟩, ?_⟩
    · by_cases hb : body.isNullish = true
      · refine ⟨_, ?_, thrown ⟨st, body⟩ "Failed to create roadmap" (by decide), ?_⟩ <;>
          simp [createRoadmap, Js.tryFinally, Js.tryCatch, Js.bind_eq, Js.pure_eq, Js.andThen,
            Js.ret, Js.raise, axiosCall, getProp, setLoading, toastError, Outcome.bodyReadable, hb]
      · refine ⟨OpResult.success, ?_, Or.inl rfl, ?_⟩ <;>
          simp [createRoadmap, Js.tryFinally, Js.tryCatch, Js.bind_eq, Js.pure_eq, Js.andThen,
            Js.ret, Js.raise, axiosCall, getProp, setLoading, setRoadmap, toastSuccess,
            Outcome.bodyReadable, hb]
    · by_cases hb : body.isNullish = true
      · refine ⟨_, ?_, thrown ⟨st, body⟩ "Failed to update task" (by decide), ?_⟩ <;>
          simp [updateTaskCompletion, Js.tryCatch, Js.bind_eq, Js.pure_eq, Js.andThen,
            Js.ret, Js.raise, axiosCall, getProp, toastError, Outcome.bodyReadable, hb]
      · refine ⟨OpResult.success, ?_, Or.inl rfl, ?_⟩ <;>
          simp [updateTaskCompletion, Js.tryCatch, Js.bind_eq, Js.pure_eq, Js.andThen,
            Js.ret, Js.raise, axiosCall, getProp, setRoadmap, toastSuccess,
            Outcome.bodyReadable, hb]
    · simp [deleteRoadmap, Js.tryCatch, Js.bind_eq, Js.pure_eq, Js.andThen, Js.ret, axiosCall,
        setRoadmap, setCurrentWeek, toastSuccess]
    · simp [Outcome.isFulfilled]
    · intro r hr hw
      cases hr
      cases body <;> simp_all [wellFormedEnvelope, payloadOf, Outcome.bodyReadable,
        JsVal.isNullish]

/-- C9: for every failed call of createRoadmap, updateTaskCompletion or
deleteRoadmap exactly one toast is added, of kind error, whose text is the
message carried by the failure response when it carries a non-empty one and
otherwise "Failed to create roadmap", "Failed to update task" or "Failed to
delete roadmap"; the `message` of the returned `{ success: false, message }` is
that same text. -/
theorem failed_mutation_notifies_once (w : World) (resp : Option Response)
    (targetRole : JsVal) (weekId taskId : String) (completed : Bool) :
    ((createRoadmap targetRole (Outcome.rejected resp) w).1
        = Except.ok (OpResult.failure (expectedFailureText resp "Failed to create roadmap")) ∧
      (createRoadmap targetRole (Outcome.rejected resp) w).2.toasts
        = w.toasts ++ [⟨ToastKind.error, expectedFailureText resp "Failed to create roadmap"⟩]) ∧
    ((updateTaskCompletion weekId taskId completed (Outcome.rejected resp) w).1
        = Except.ok (OpResult.failure (expectedFailureText resp "Failed to update task")) ∧
      (updateTaskCompletion weekId taskId completed (Outcome.rejected resp) w).2.toasts
        = w.toasts ++ [⟨ToastKind.error, expectedFailureText resp "Failed to update task"⟩]) ∧
    ((deleteRoadmap (Outcome.rejected resp) w).1
        = Except.ok (OpResult.failure (expectedFailureText resp "Failed to delete roadmap")) ∧
      (deleteRoadmap (Outcome.rejected resp) w).2.toasts
        = w.toasts ++ [⟨ToastKind.error, expectedFailureText resp "Failed to delete roadmap"⟩]) := by
  simp [createRoadmap, updateTaskCompletion, deleteRoadmap, Js.tryFinally, Js.tryCatch,
    Js.bind_eq, Js.pure_eq, Js.andThen, Js.ret, axiosCall, setLoading, toastError,
    serverMessage_or_eq]

/-! ## The effect on `isAuthenticated` -/

/-- C10 as stated fails: the effect run for `isAuthenticated = false` on a
provider that holds a roadmap and a current week leaves both in place. -/
theorem authEffect_logout_leaves_session_data :
    (authEffect false (Outcome.rejected none) sampleWorld).2.roadmap ≠ JsVal.null ∧
    (authEffect false (Outcome.rejected none) sampleWorld).2.currentWeek ≠ JsVal.null := by
  constructor <;> simp [authEffect, Js.pure_eq, Js.ret, sampleWorld]

/-- C10, amended: the effect run for `isAuthenticated = false` changes
nothing and sends nothing, so `roadmap` and `currentWeek` keep their values
across a logout.  The effect run for `isAuthenticated = true` is one
fetchRoadmap; once it has settled, `roadmap` is `null` or the `data` member
of the new response, and `currentWeek` is still the value held before. -/
theorem authEffect_logout_keeps_state (w : World) (net : Outcome) :
    authEffect false net w = (Except.ok (), w) ∧
    authEffect true net w = fetchRoadmap net w ∧
    (authEffect true net w).2.currentWeek = w.currentWeek ∧
    ((authEffect true net w).2.roadmap = JsVal.null ∨
      ∃ r, net = Outcome.fulfilled r ∧ (authEffect true net w).2.roadmap = r.data.field "data") := by
  refine ⟨rfl, rfl, ?_, ?_⟩
  · cases net with
    | rejected resp =>
      by_cases h : statusIsNot404 (JsError.axiosError resp) = true <;>
        simp [authEffect, fetchRoadmap, Js.tryFinally, Js.tryCatch, Js.bind_eq, Js.pure_eq,
          Js.andThen, Js.ret, axiosCall, setRoadmap, setLoading, consoleError, h]
    | fulfilled r =>
      by_cases hb : r.data.isNullish = true <;>
        simp [authEffect, fetchRoadmap, Js.tryFinally, Js.tryCatch, Js.bind_eq, Js.pure_eq,
          Js.andThen, Js.ret, Js.raise, axiosCall, getProp, setRoadmap, setLoading,
          consoleError, statusIsNot404, JsError.response, hb]
  · cases net with
    | rejected resp =>
      left
      by_cases h : statusIsNot404 (JsError.axiosError resp) = true <;>
        simp [authEffect, fetchRoadmap, Js.tryFinally, Js.tryCatch, Js.bind_eq, Js.pure_eq,
          Js.andThen, Js.ret, axiosCall, setRoadmap, setLoading, consoleError, h]
    | fulfilled r =>
      by_cases hb : r.data.isNullish = true
      · left
        simp [authEffect, fetchRoadmap, Js.tryFinally, Js.tryCatch, Js.bind_eq, Js.pure_eq,
          Js.andThen, Js.ret, Js.raise, axiosCall, getProp, setRoadmap, setLoading,
          consoleError, statusIsNot404, JsError.response, hb]
      · right
        refine ⟨r, rfl, ?_⟩
        simp [authEffect, fetchRoadmap, Js.tryFinally, Js.tryCatch, Js.bind_eq, Js.pure_eq,
          Js.andThen, Js.ret, Js.raise, axiosCall, getProp, setRoadmap, setLoading, hb]

/-! ## Route guards -/

/-- C11: ProtectedRoute yields the loading placeholder whenever `loading` is
true, for either value of `isAuthenticated` (never a redirect); its children
when `loading` is false and `isAuthenticated` is true; a redirect to "/login"
when both are false.  Every combination yields one of these three. -/
theorem protectedRoute_outcomes (children : Element) :
    (∀ isAuthenticated, ProtectedRoute isAuthenticated true children = Element.spinner) ∧
    ProtectedRoute true false children = children ∧
    ProtectedRoute false false children = Element.navigate "/login" ∧
    (∀ isAuthenticated loading,
      ProtectedRoute isAuthenticated loading children = Element.spinner ∨
      ProtectedRoute isAuthenticated loading children = children ∨
      ProtectedRoute isAuthenticated loading children = Element.navigate "/login") := by
  refine ⟨fun a => by cases a <;> rfl, rfl, rfl, fun a l => ?_⟩
  cases a <;> cases l <;> simp [ProtectedRoute]

/-- C12: PublicRoute yields the loading placeholder whenever `loading` is
true; a redirect to "/dashboard" when `loading` is false and `isAuthenticated`
is true; its children when both are false.  Every combination yields one of
these three. -/
theorem publicRoute_outcomes (children : Element) :
    (∀ isAuthenticated, PublicRoute isAuthenticated true children = Element.spinner) ∧
    PublicRoute true false children = Element.navigate "/dashboard" ∧
    PublicRoute false false children = children ∧
    (∀ isAuthenticated loading,
      PublicRoute isAuthenticated loading children = Element.spinner ∨
      PublicRoute isAuthenticated loading children = Element.navigate "/dashboard" ∨
      PublicRoute isAuthenticated loading children = children) := by
  refine ⟨fun a => by cases a <;> rfl, rfl, rfl, fun a l => ?_⟩
  cases a <;> cases l <;> simp [PublicRoute]

/-- C17: the route of the root path is a redirect to "/dashboard" for every
combination of `isAuthenticated` and `loading`. -/
theorem root_route_redirects (isAuthenticated loading : Bool) :
    routes isAuthenticated loading "/" = some (Element.navigate "/dashboard") := by
  simp [routes]

/-! ## Calls in flight -/

/-- A call of fetchRoadmap is its issue followed by its settlement. -/
theorem fetchRoadmap_eq_issue_settle (net : Outcome) (w : World) :
    fetchRoadmap net w = fetchRoadmap_settle net (fetchRoadmap_issue w).2 := by
  cases net with
  | rejected resp =>
    by_cases h : statusIsNot404 (JsError.axiosError resp) = true <;>
      simp [fetchRoadmap, fetchRoadmap_settle, fetchRoadmap_issue, Js.tryFinally, Js.tryCatch,
        Js.bind_eq, Js.pure_eq, Js.andThen, Js.ret, axiosCall, axiosSend, awaitResponse,
        setRoadmap, setLoading, consoleError, h]
  | fulfilled r =>
    by_cases hb : r.data.isNullish = true <;>
      simp [fetchRoadmap, fetchRoadmap_settle, fetchRoadmap_issue, Js.tryFinally, Js.tryCatch,
        Js.bind_eq, Js.pure_eq, Js.andThen, Js.ret, Js.raise, axiosCall, axiosSend,
        awaitResponse, getProp, setRoadmap, setLoading, consoleError, statusIsNot404,
        JsError.response, hb]

/-- A call of fetchCurrentWeek is its issue followed by its settlement. -/
theorem fetchCurrentWeek_eq_issue_settle (net : Outcome) (w : World) :
    fetchCurrentWeek net w = fetchCurrentWeek_settle net (fetchCurrentWeek_issue w).2 := by
  cases net with
  | rejected resp =>
    simp [fetchCurrentWeek, fetchCurrentWeek_settle, fetchCurrentWeek_issue, Js.tryCatch,
      Js.bind_eq, Js.andThen, axiosCall, axiosSend, awaitResponse, consoleError]
  | fulfilled r =>
    by_cases hb : r.data.isNullish = true <;>
      simp [fetchCurrentWeek, fetchCurrentWeek_settle, fetchCurrentWeek_issue, Js.tryCatch,
        Js.bind_eq, Js.andThen, Js.ret, Js.raise, axiosCall, axiosSend, awaitResponse,
        getProp, setCurrentWeek, consoleError, hb]

/-- C14: with two calls of fetchRoadmap in flight, both answered by a
well-formed envelope, the roadmap after both have settled is the payload of
the one that settled last, in either order of settlement. -/
theorem overlapping_fetches_last_settled_wins (w : World) (rA rB : Response) (A B : JsVal)
    (hA : payloadOf rA.data = some A) (hB : payloadOf rB.data = some B) :
    (fetchRoadmap_settle (Outcome.fulfilled rB)
      (fetchRoadmap_settle (Outcome.fulfilled rA)
        (fetchRoadmap_issue (fetchRoadmap_issue w).2).2).2).2.roadmap = B ∧
    (fetchRoadmap_settle (Outcome.fulfilled rA)
      (fetchRoadmap_settle (Outcome.fulfilled rB)
        (fetchRoadmap_issue (fetchRoadmap_issue w).2).2).2).2.roadmap = A := by
  simp [fetchRoadmap_settle, fetchRoadmap_issue, Js.tryFinally, Js.tryCatch, Js.bind_eq,
    Js.andThen, Js.ret, axiosSend, awaitResponse, getProp_data_of_payload hA,
    getProp_data_of_payload hB, setRoadmap, setLoading]

/-- Witness of C14: the response to the first request lands after the response
to the second and is the one kept. -/
theorem overlapping_fetches_last_settled_wins_witness :
    payloadOf sampleResponse.data = some sampleRoadmap ∧
    payloadOf (Response.mk 200 (JsVal.obj [("data", sampleWorld.roadmap)])).data
      = some sampleWorld.roadmap ∧
    (fetchRoadmap_settle (Outcome.fulfilled ⟨200, JsVal.obj [("data", sampleWorld.roadmap)]⟩)
      (fetchRoadmap_settle (Outcome.fulfilled sampleResponse)
        (fetchRoadmap_issue (fetchRoadmap_issue World.initial).2).2).2).2.roadmap
      = sampleWorld.roadmap ∧
    (fetchRoadmap_settle (Outcome.fulfilled sampleResponse)
      (fetchRoadmap_settle (Outcome.fulfilled ⟨200, JsVal.obj [("data", sampleWorld.roadmap)]⟩)
        (fetchRoadmap_issue (fetchRoadmap_issue World.initial).2).2).2).2.roadmap
      = sampleRoadmap :=
  ⟨rfl, rfl, overlapping_fetches_last_settled_wins World.initial sampleResponse
    ⟨200, JsVal.obj [("data", sampleWorld.roadmap)]⟩ sampleRoadmap sampleWorld.roadmap rfl rfl⟩

/-- C15: fetchCurrentWeek touches only `currentWeek`.  Whatever the outcome,
nothing is thrown, no toast is shown and `roadmap` and `loading` are as they
were; answered by an envelope with payload `W` it sets `currentWeek` to `W`;
on any failure (a rejection, or a body on which `response.data.data` cannot be
read) `currentWeek` is as it was too. -/
theorem fetchCurrentWeek_frame (w : World) (net : Outcome) :
    (fetchCurrentWeek net w).1 = Except.ok () ∧
    (fetchCurrentWeek net w).2.roadmap = w.roadmap ∧
    (fetchCurrentWeek net w).2.loading = w.loading ∧
    (fetchCurrentWeek net w).2.toasts = w.toasts ∧
    (∀ r W, net = Outcome.fulfilled r → payloadOf r.data = some W →
      (fetchCurrentWeek net w).2.currentWeek = W) ∧
    (net.payload = none → (fetchCurrentWeek net w).2.currentWeek = w.currentWeek) := by
  have frame : (fetchCurrentWeek net w).1 = Except.ok () ∧
      (fetchCurrentWeek net w).2.roadmap = w.roadmap ∧
      (fetchCurrentWeek net w).2.loading = w.loading ∧
      (fetchCurrentWeek net w).2.toasts = w.toasts ∧
      (net.payload = none → (fetchCurrentWeek net w).2.currentWeek = w.currentWeek) := by
    cases net with
    | rejected resp =>
      simp [fetchCurrentWeek, Js.tryCatch, Js.bind_eq, Js.andThen, axiosCall, consoleError]
    | fulfilled r =>
      by_cases hb : r.data.isNullish = true <;>
        simp [fetchCurrentWeek, Js.tryCatch, Js.bind_eq, Js.andThen, Js.ret, Js.raise,
          axiosCall, getProp, setCurrentWeek, consoleError, Outcome.payload, hb]
  refine ⟨frame.1, frame.2.1, frame.2.2.1, frame.2.2.2.1, ?_, frame.2.2.2.2⟩
  intro r W hnet hW
  subst hnet
  simp [fetchCurrentWeek, Js.tryCatch, Js.bind_eq, Js.andThen, Js.ret, axiosCall,
    getProp_data_of_payload hW, setCurrentWeek]

/-- Witness of C15: a current-week projection arriving at a provider that
holds a roadmap, and a transport failure at the same provider. -/
theorem fetchCurrentWeek_frame_witness :
    (fetchCurrentWeek
      (Outcome.fulfilled ⟨200, JsVal.obj [("data", JsVal.obj [("currentWeek", JsVal.num 4)])]⟩)
      sampleWorld).2.currentWeek = JsVal.obj [("currentWeek", JsVal.num 4)] ∧
    (fetchCurrentWeek (Outcome.rejected none) sampleWorld).2.currentWeek
      = sampleWorld.currentWeek :=
  ⟨(fetchCurrentWeek_frame sampleWorld
      (Outcome.fulfilled
        ⟨200, JsVal.obj [("data", JsVal.obj [("currentWeek", JsVal.num 4)])]⟩)).2.2.2.2.1
      _ _ rfl rfl,
    (fetchCurrentWeek_frame sampleWorld (Outcome.rejected none)).2.2.2.2.2 rfl⟩

/-! ## The Dashboard effect -/

/-- C18: with no user the Dashboard effect sends nothing and changes nothing;
with a user it sends the roadmap request first and then the current-week
request exactly when the roadmap held when the effect runs is truthy.  The
decision does not wait for the fetch just issued: from a provider without a
roadmap no current-week request has been sent even once that fetch has settled
with a roadmap. -/
theorem dashboardEffect_requests (user : JsVal) (w : World) (net : Outcome) :
    (user.truthy = false → dashboardEffect user w = (Except.ok (), w)) ∧
    (user.truthy = true → w.roadmap.truthy = true →
      (dashboardEffect user w).2.requests = w.requests ++
        [⟨"GET", "/api/roadmaps", JsVal.undefined⟩,
         ⟨"GET", "/api/roadmaps/current-week", JsVal.undefined⟩]) ∧
    (user.truthy = true → w.roadmap.truthy = false →
      (dashboardEffect user w).2.requests
        = w.requests ++ [⟨"GET", "/api/roadmaps", JsVal.undefined⟩] ∧
      (fetchRoadmap_settle net (dashboardEffect user w).2).2.requests
        = w.requests ++ [⟨"GET", "/api/roadmaps", JsVal.undefined⟩] ∧
      (fetchRoadmap_settle net (dashboardEffect user w).2).2
        = (fetchRoadmap net w).2) := by
  refine ⟨fun hu => ?_, fun hu hr => ?_, fun hu hr => ?_⟩
  · simp [dashboardEffect, hu]
  · simp [dashboardEffect, hu, hr, fetchRoadmap_issue, fetchCurrentWeek_issue, Js.bind_eq,
      Js.andThen, axiosSend, setLoading]
  · have hd : dashboardEffect user w = fetchRoadmap_issue w := by
      simp [dashboardEffect, hu, hr, fetchRoadmap_issue, Js.bind_eq, Js.pure_eq, Js.andThen,
        Js.ret, axiosSend, setLoading]
    have hreq : (fetchRoadmap_issue w).2.requests
        = w.requests ++ [⟨"GET", "/api/roadmaps", JsVal.undefined⟩] := by
      simp [fetchRoadmap_issue, Js.bind_eq, Js.andThen, axiosSend, setLoading]
    rw [hd, ← fetchRoadmap_eq_issue_settle]
    refine ⟨hreq, ?_, rfl⟩
    cases net with
    | rejected resp =>
      by_cases h : statusIsNot404 (JsError.axiosError resp) = true <;>
        simp [fetchRoadmap, Js.tryFinally, Js.tryCatch, Js.bind_eq, Js.pure_eq, Js.andThen,
          Js.ret, axiosCall, setRoadmap, setLoading, consoleError, h]
    | fulfilled r =>
      by_cases hb : r.data.isNullish = true <;>
        simp [fetchRoadmap, Js.tryFinally, Js.tryCatch, Js.bind_eq, Js.pure_eq, Js.andThen,
          Js.ret, Js.raise, axiosCall, getProp, setRoadmap, setLoading, consoleError,
          statusIsNot404, JsError.response, hb]

/-- Witness of C18: a logged-in user on a provider that holds a roadmap, and
the same user on a fresh provider whose fetch then brings a roadmap. -/
theorem dashboardEffect_requests_witness :
    (dashboardEffect (JsVal.obj [("name", JsVal.str "Asha")]) sampleWorld).2.requests
      = sampleWorld.requests ++
        [⟨"GET", "/api/roadmaps", JsVal.undefined⟩,
         ⟨"GET", "/api/roadmaps/current-week", JsVal.undefined⟩] ∧
    (fetchRoadmap_settle (Outcome.fulfilled sampleResponse)
        (dashboardEffect (JsVal.obj [("name", JsVal.str "Asha")]) World.initial).2).2.requests
      = World.initial.requests ++ [⟨"GET", "/api/roadmaps", JsVal.undefined⟩] :=
  ⟨(dashboardEffect_requests (JsVal.obj [("name", JsVal.str "Asha")]) sampleWorld
      (Outcome.fulfilled sampleResponse)).2.1 rfl rfl,
    ((dashboardEffect_requests (JsVal.obj [("name", JsVal.str "Asha")]) World.initial
      (Outcome.fulfilled sampleResponse)).2.2 rfl rfl).2.1⟩

/-! ## Wholesale replacement of the roadmap -/

/-- After one settled call the roadmap is the one held before, `null`, or the
roadmap payload of the response to that call. -/
theorem call_run_roadmap (c : Call) (w : World) :
    (c.run w).roadmap = w.roadmap ∨ (c.run w).roadmap = JsVal.null ∨
      c.roadmapPayload = some (c.run w).roadmap := by
  cases c with
  | fetchRoadmap net =>
    cases net with
    | rejected resp =>
      by_cases h : statusIsNot404 (JsError.axiosError resp) = true <;>
        simp [Call.run, fetchRoadmap, Js.tryFinally, Js.tryCatch, Js.bind_eq, Js.pure_eq,
          Js.andThen, Js.ret, axiosCall, setRoadmap, setLoading, consoleError, h]
    | fulfilled r =>
      by_cases hb : r.data.isNullish = true <;>
        simp [Call.run, Call.roadmapPayload, Outcome.payload, fetchRoadmap, Js.tryFinally,
          Js.tryCatch, Js.bind_eq, Js.pure_eq, Js.andThen, Js.ret, Js.raise, axiosCall, getProp,
          setRoadmap, setLoading, consoleError, statusIsNot404, JsError.response, hb]
  | fetchCurrentWeek net =>
    left
    cases net with
    | rejected resp =>
      simp [Call.run, fetchCurrentWeek, Js.tryCatch, Js.bind_eq, Js.andThen, axiosCall,
        consoleError]
    | fulfilled r =>
      by_cases hb : r.data.isNullish = true <;>
        simp [Call.run, fetchCurrentWeek, Js.tryCatch, Js.bind_eq, Js.andThen, Js.ret,
          Js.raise, axiosCall, getProp, setCurrentWeek, consoleError, hb]
  | createRoadmap targetRole net =>
    cases net with
    | rejected resp =>
      simp [Call.run, createRoadmap, Js.tryFinally, Js.tryCatch, Js.bind_eq, Js.pure_eq,
        Js.andThen, Js.ret, axiosCall, setLoading, toastError]
    | fulfilled r =>
      by_cases hb : r.data.isNullish = true <;>
        simp [Call.run, Call.roadmapPayload, Outcome.payload, createRoadmap, Js.tryFinally,
          Js.tryCatch, Js.bind_eq, Js.pure_eq, Js.andThen, Js.ret, Js.raise, axiosCall, getProp,
          setRoadmap, setLoading, toastSuccess, toastError, hb]
  | updateTaskCompletion weekId taskId completed net =>
    cases net with
    | rejected resp =>
      simp [Call.run, updateTaskCompletion, Js.tryCatch, Js.bind_eq, Js.pure_eq, Js.andThen,
        Js.ret, axiosCall, toastError]
    | fulfilled r =>
      by_cases hb : r.data.isNullish = true <;>
        simp [Call.run, Call.roadmapPayload, Outcome.payload, updateTaskCompletion,
          Js.tryCatch, Js.bind_eq, Js.pure_eq, Js.andThen, Js.ret, Js.raise, axiosCall, getProp,
          setRoadmap, toastSuccess, toastError, hb]
  | deleteRoadmap net =>
    cases net with
    | rejected resp =>
      simp [Call.run, deleteRoadmap, Js.tryCatch, Js.bind_eq, Js.pure_eq, Js.andThen, Js.ret,
        axiosCall, toastError]
    | fulfilled r =>
      simp [Call.run, deleteRoadmap, Js.tryCatch, Js.bind_eq, Js.pure_eq, Js.andThen, Js.ret,
        axiosCall, setRoadmap, setCurrentWeek, toastSuccess]

/-- A roadmap that is `null` or the payload of one of the calls of `cs` is so
still after any calls taken from `cs`. -/
theorem runCalls_roadmap_from_payload (cs : List Call) :
    ∀ (l : List Call) (w : World), (∀ c ∈ l, c ∈ cs) →
      (w.roadmap = JsVal.null ∨ ∃ c ∈ cs, c.roadmapPayload = some w.roadmap) →
      ((runCalls l w).roadmap = JsVal.null ∨
        ∃ c ∈ cs, c.roadmapPayload = some (runCalls l w).roadmap) := by
  intro l
  induction l with
  | nil => intro w _ h; exact h
  | cons c l ih =>
    intro w hl h
    have hc : c ∈ cs := hl c (List.mem_cons_self c l)
    have step : (c.run w).roadmap = JsVal.null ∨
        ∃ d ∈ cs, d.roadmapPayload = some (c.run w).roadmap := by
      rcases call_run_roadmap c w with h1 | h1 | h1
      · rw [h1]; exact h
      · exact Or.inl h1
      · exact Or.inr ⟨c, hc, h1⟩
    exact ih (c.run w) (fun d hd => hl d (List.mem_cons_of_mem c hd)) step

/-- C13: the roadmap is only ever replaced wholesale.  After any one call of
fetchRoadmap, fetchCurrentWeek, createRoadmap, updateTaskCompletion or
deleteRoadmap, however it settled, the roadmap is the prior one, `null`, or
the payload of that call's response.  Hence along any sequence of calls that
starts without a roadmap, every roadmap held is `null` or is the payload of
one of the responses, member for member (so its progress, completedTasks,
totalTasks, jobReadinessScore and consistencyScore are those of that one
payload), and it satisfies completedTasks ≤ totalTasks when every payload
does. -/
theorem roadmap_replaced_wholesale :
    (∀ (c : Call) (w : World),
      (c.run w).roadmap = w.roadmap ∨ (c.run w).roadmap = JsVal.null ∨
        c.roadmapPayload = some (c.run w).roadmap) ∧
    (∀ (cs : List Call) (w : World) (n : Nat), w.roadmap = JsVal.null →
      (runCalls (cs.take n) w).roadmap = JsVal.null ∨
        ∃ c ∈ cs, ∃ P, c.roadmapPayload = some P ∧ (runCalls (cs.take n) w).roadmap = P ∧
          (∀ k, (runCalls (cs.take n) w).roadmap.field k = P.field k) ∧
          ((∀ d ∈ cs, ∀ Q, d.roadmapPayload = some Q → tasksWithinTotal Q = true) →
            tasksWithinTotal (runCalls (cs.take n) w).roadmap = true)) := by
  refine ⟨call_run_roadmap, fun cs w n hw => ?_⟩
  rcases runCalls_roadmap_from_payload cs (cs.take n) w
      (fun c hc => List.mem_of_mem_take hc) (Or.inl hw) with h | ⟨c, hc, hP⟩
  · exact Or.inl h
  · exact Or.inr ⟨c, hc, _, hP, rfl, fun _ => rfl, fun hall => hall c hc _ hP⟩

/-- Witness of C13: a creation, a failed task update and a current-week fetch
on a fresh provider leave the created roadmap, which keeps the invariant of
its payload. -/
theorem roadmap_replaced_wholesale_witness :
    (runCalls
      ([Call.createRoadmap (JsVal.str "Backend Developer") (Outcome.fulfilled sampleResponse),
        Call.updateTaskCompletion "week1" "task3" true (Outcome.rejected none),
        Call.fetchCurrentWeek (Outcome.rejected none)].take 3)
      World.initial).roadmap = JsVal.null ∨
    ∃ c ∈ [Call.createRoadmap (JsVal.str "Backend Developer") (Outcome.fulfilled sampleResponse),
        Call.updateTaskCompletion "week1" "task3" true (Outcome.rejected none),
        Call.fetchCurrentWeek (Outcome.rejected none)],
      ∃ P, c.roadmapPayload = some P ∧
        (runCalls
          ([Call.createRoadmap (JsVal.str "Backend Developer")
              (Outcome.fulfilled sampleResponse),
            Call.updateTaskCompletion "week1" "task3" true (Outcome.rejected none),
            Call.fetchCurrentWeek (Outcome.rejected none)].take 3)
          World.initial).roadmap = P ∧
        (∀ k, (runCalls
          ([Call.createRoadmap (JsVal.str "Backend Developer")
              (Outcome.fulfilled sampleResponse),
            Call.updateTaskCompletion "week1" "task3" true (Outcome.rejected none),
            Call.fetchCurrentWeek (Outcome.rejected none)].take 3)
          World.initial).roadmap.field k = P.field k) ∧
        ((∀ d ∈ [Call.createRoadmap (JsVal.str "Backend Developer")
              (Outcome.fulfilled sampleResponse),
            Call.updateTaskCompletion "week1" "task3" true (Outcome.rejected none),
            Call.fetchCurrentWeek (Outcome.rejected none)],
          ∀ Q, d.roadmapPayload = some Q → tasksWithinTotal Q = true) →
          tasksWithinTotal (runCalls
            ([Call.createRoadmap (JsVal.str "Backend Developer")
                (Outcome.fulfilled sampleResponse),
              Call.updateTaskCompletion "week1" "task3" true (Outcome.rejected none),
              Call.fetchCurrentWeek (Outcome.rejected none)].take 3)
            World.initial).roadmap = true) :=
  roadmap_replaced_wholesale.2 _ World.initial 3 rfl

/-! ## Phases and weekly goals -/

/-- C19: the weekly goals shown for the selected phase are those whose `phase`
equals the name of `roadmap.phases[selectedPhase]`, in their original order;
there are none when the index is past the end of `phases`; two phases of the
same name show the same goals. -/
theorem phaseWeeks_joins_by_name (roadmap : RoadmapData) (selectedPhase : Nat) :
    (∀ p, currentPhase roadmap selectedPhase = some p →
      phaseWeeks roadmap selectedPhase
        = roadmap.weeklyGoals.filter (fun w => decide (w.phase = p.name))) ∧
    (phaseWeeks roadmap selectedPhase).Sublist roadmap.weeklyGoals ∧
    (roadmap.phases.length ≤ selectedPhase → phaseWeeks roadmap selectedPhase = []) ∧
    (∀ other p q, currentPhase roadmap selectedPhase = some p →
      currentPhase roadmap other = some q → p.name = q.name →
      phaseWeeks roadmap selectedPhase = phaseWeeks roadmap other) := by
  refine ⟨fun p hp => ?_, List.filter_sublist _, fun h => ?_, fun other p q hp hq hn => ?_⟩
  · simp [phaseWeeks, hp, beq_eq_decide]
  · have hnone : currentPhase roadmap selectedPhase = none := by
      simp [currentPhase, List.getElem?_eq_none h]
    simp [phaseWeeks, hnone]
  · simp [phaseWeeks, hp, hq, hn]

/-- Witness of C19: the first phase of the sample roadmap shows its two goals
in order, and an index past the end shows none. -/
theorem phaseWeeks_joins_by_name_witness :
    phaseWeeks sampleRoadmapData 0
      = sampleRoadmapData.weeklyGoals.filter (fun w => decide (w.phase = "Foundations")) ∧
    phaseWeeks sampleRoadmapData 2 = [] :=
  ⟨(phaseWeeks_joins_by_name sampleRoadmapData 0).1 ⟨1, "Foundations", "Core skills", ["HTML"], 50⟩
      rfl,
    (phaseWeeks_joins_by_name sampleRoadmapData 2).2.2.1 (by decide)⟩

/-! ## The Profile page -/

theorem PageJs.page_bind_eq {α β : Type} (m : PageJs α) (f : α → PageJs β) :
    (m >>= f) = PageJs.andThen m f := rfl

theorem PageJs.page_pure_eq {α : Type} (a : α) : (pure a : PageJs α) = PageJs.ret a := rfl

/-- C16: handleGenerateRoadmap reaches the profile save and createRoadmap only
with a truthy `formData.targetRole` and at least one skill.  With a falsy
target role it shows the one error toast about the target role, with a target
role and no skill the one error toast about skills, and in both cases sends
nothing and changes nothing else.  Otherwise it sends the profile request and
then the creation request, whose body is `{ targetRole: formData.targetRole }`. -/
theorem handleGenerateRoadmap_guards (saveNet createNet : Outcome) (p : ProfilePage) :
    (p.formData.targetRole.truthy = false →
      handleGenerateRoadmap saveNet createNet p
        = (Except.ok (), { p with world := { p.world with toasts := p.world.toasts ++
            [⟨ToastKind.error, JsVal.str "Please select a target role first"⟩] } })) ∧
    (p.formData.targetRole.truthy = true → p.skills = [] →
      handleGenerateRoadmap saveNet createNet p
        = (Except.ok (), { p with world := { p.world with toasts := p.world.toasts ++
            [⟨ToastKind.error, JsVal.str "Please add at least one current skill"⟩] } })) ∧
    (p.formData.targetRole.truthy = true → p.skills ≠ [] →
      (handleGenerateRoadmap saveNet createNet p).2.world.requests
        = p.world.requests ++
          [⟨"PUT", "/api/users/profile", profileBody p⟩,
           ⟨"POST", "/api/roadmaps", JsVal.obj [("targetRole", p.formData.targetRole)]⟩]) := by
  refine ⟨fun ht => ?_, fun ht hs => ?_, fun ht hs => ?_⟩
  · simp [handleGenerateRoadmap, ht, PageJs.lift, toastError]
  · simp [handleGenerateRoadmap, ht, hs, PageJs.lift, toastError]
  · have hlen : (p.skills.length == 0) = false := by
      cases hp : p.skills with
      | nil => exact absurd hp hs
      | cons a l => rfl
    cases saveNet with
    | rejected sresp =>
      cases createNet with
      | rejected cresp =>
        simp [handleGenerateRoadmap, handleSaveProfile, ht, hlen, PageJs.page_bind_eq, PageJs.page_pure_eq,
          PageJs.andThen, PageJs.ret, PageJs.tryCatch, PageJs.lift, setGenerating, navigate,
          createRoadmap, Js.tryFinally, Js.tryCatch, Js.bind_eq, Js.pure_eq, Js.andThen, Js.ret,
          axiosCall, setLoading, toastError, profileBody, OpResult.isSuccess]
      | fulfilled cr =>
        by_cases hc : cr.data.isNullish = true <;>
          simp [handleGenerateRoadmap, handleSaveProfile, ht, hlen, PageJs.page_bind_eq,
            PageJs.page_pure_eq, PageJs.andThen, PageJs.ret, PageJs.tryCatch, PageJs.lift,
            setGenerating, navigate, createRoadmap, Js.tryFinally, Js.tryCatch, Js.bind_eq,
            Js.pure_eq, Js.andThen, Js.ret, Js.raise, axiosCall, getProp, setRoadmap, setLoading,
            toastSuccess, toastError, profileBody, OpResult.isSuccess, hc]
    | fulfilled sr =>
      by_cases hsn : sr.data.isNullish = true <;>
      cases createNet with
      | rejected cresp =>
        simp [handleGenerateRoadmap, handleSaveProfile, ht, hlen, PageJs.page_bind_eq, PageJs.page_pure_eq,
          PageJs.andThen, PageJs.ret, PageJs.tryCatch, PageJs.lift, setGenerating, setEditing,
          updateUser, navigate, createRoadmap, Js.tryFinally, Js.tryCatch, Js.bind_eq,
          Js.pure_eq, Js.andThen, Js.ret, Js.raise, axiosCall, getProp, setLoading,
          toastSuccess, toastError, profileBody, OpResult.isSuccess, hsn]
      | fulfilled cr =>
        by_cases hc : cr.data.isNullish = true <;>
          simp [handleGenerateRoadmap, handleSaveProfile, ht, hlen, PageJs.page_bind_eq,
            PageJs.page_pure_eq, PageJs.andThen, PageJs.ret, PageJs.tryCatch, PageJs.lift,
            setGenerating, setEditing, updateUser, navigate, createRoadmap, Js.tryFinally,
            Js.tryCatch, Js.bind_eq, Js.pure_eq, Js.andThen, Js.ret, Js.raise, axiosCall,
            getProp, setRoadmap, setLoading, toastSuccess, toastError, profileBody,
            OpResult.isSuccess, hsn, hc]

/-- Witness of C16: the sample page sends both requests; the same page with
an empty target role shows the target-role toast and sends nothing. -/
theorem handleGenerateRoadmap_guards_witness :
    (handleGenerateRoadmap (Outcome.rejected none) (Outcome.fulfilled sampleResponse)
        sampleProfilePage).2.world.requests
      = sampleProfilePage.world.requests ++
        [⟨"PUT", "/api/users/profile", profileBody sampleProfilePage⟩,
         ⟨"POST", "/api/roadmaps",
            JsVal.obj [("targetRole", sampleProfilePage.formData.targetRole)]⟩] ∧
    handleGenerateRoadmap (Outcome.rejected none) (Outcome.fulfilled sampleResponse)
        { sampleProfilePage with
          formData := { sampleProfilePage.formData with targetRole := JsVal.str "" } }
      = (Except.ok (),
          { sampleProfilePage with
            formData := { sampleProfilePage.formData with targetRole := JsVal.str "" },
            world := { sampleProfilePage.world with toasts := sampleProfilePage.world.toasts ++
              [⟨ToastKind.error, JsVal.str "Please select a target role first"⟩] } }) :=
  ⟨(handleGenerateRoadmap_guards (Outcome.rejected none) (Outcome.fulfilled sampleResponse)
      sampleProfilePage).2.2 rfl (by simp [sampleProfilePage]),
    (handleGenerateRoadmap_guards (Outcome.rejected none) (Outcome.fulfilled sampleResponse)
      { sampleProfilePage with
        formData := { sampleProfilePage.formData with targetRole := JsVal.str "" } }).1 rfl⟩

/-- The profile save returns normally however its request settles, and has
then sent exactly the profile request. -/
theorem handleSaveProfile_settles (net : Outcome) (p : ProfilePage) :
    (handleSaveProfile net p).1 = Except.ok () ∧
    (handleSaveProfile net p).2.world.requests
      = p.world.requests ++ [⟨"PUT", "/api/users/profile", profileBody p⟩] ∧
    (handleSaveProfile net p).2.navigations = p.navigations ∧
    (handleSaveProfile net p).2.generating = p.generating := by
  cases net with
  | rejected resp =>
    simp [handleSaveProfile, PageJs.page_bind_eq, PageJs.andThen, PageJs.tryCatch, PageJs.lift,
      axiosCall, toastError]
  | fulfilled r =>
    by_cases hb : r.data.isNullish = true <;>
      simp [handleSaveProfile, PageJs.page_bind_eq, PageJs.andThen, PageJs.tryCatch, PageJs.lift,
        setEditing, updateUser, Js.ret, Js.raise, axiosCall, getProp, toastSuccess, toastError,
        hb]

/-- The page's run past its two guards: mark generating, save, create, unmark,
and navigate on success. -/
theorem handleGenerateRoadmap_past_guards (saveNet createNet : Outcome) (p : ProfilePage)
    (ht : p.formData.targetRole.truthy = true) (hs : p.skills ≠ []) :
    handleGenerateRoadmap saveNet createNet p =
      (match createRoadmap p.formData.targetRole createNet
          (handleSaveProfile saveNet { p with generating := true }).2.world with
        | (Except.ok result, w1) =>
          (Except.ok (),
            { (handleSaveProfile saveNet { p with generating := true }).2 with
              world := w1, generating := false,
              navigations :=
                if result.isSuccess then
                  (handleSaveProfile saveNet { p with generating := true }).2.navigations
                    ++ ["/roadmap"]
                else (handleSaveProfile saveNet { p with generating := true }).2.navigations })
        | (Except.error e, w1) =>
          (Except.error e,
            { (handleSaveProfile saveNet { p with generating := true }).2 with world := w1 })) := by
  have hlen : (p.skills.length == 0) = false := by
    cases hp : p.skills with
    | nil => exact absurd hp hs
    | cons a l => rfl
  have hsave := (handleSaveProfile_settles saveNet { p with generating := true }).1
  generalize hq : handleSaveProfile saveNet { p with generating := true } = q at hsave ⊢
  obtain ⟨q1, q2⟩ := q
  simp only at hsave
  subst hsave
  simp only [handleGenerateRoadmap, ht, hlen, Bool.not_true, Bool.false_eq_true, if_false,
    PageJs.page_bind_eq, PageJs.andThen, setGenerating, hq, PageJs.lift]
  generalize createRoadmap p.formData.targetRole createNet q2.world = c
  obtain ⟨c1, c2⟩ := c
  cases c1 with
  | error e => rfl
  | ok result =>
    cases result <;> simp [OpResult.isSuccess, navigate, PageJs.page_pure_eq, PageJs.ret]

/-- A call of createRoadmap sends exactly the creation request and returns
`{ success: true }` when the body of a fulfilled call can be read,
`{ success: false, message }` otherwise. -/
theorem createRoadmap_settles (targetRole : JsVal) (net : Outcome) (w : World) :
    (createRoadmap targetRole net w).2.requests
      = w.requests ++ [⟨"POST", "/api/roadmaps", JsVal.obj [("targetRole", targetRole)]⟩] ∧
    (((createRoadmap targetRole net w).1 = Except.ok OpResult.success ∧
        net.bodyReadable = true) ∨
      ((∃ m, (createRoadmap targetRole net w).1 = Except.ok (OpResult.failure m)) ∧
        net.bodyReadable = false)) := by
  cases net with
  | rejected resp =>
    simp [createRoadmap, Js.tryFinally, Js.tryCatch, Js.bind_eq, Js.pure_eq, Js.andThen, Js.ret,
      axiosCall, setLoading, toastError, Outcome.bodyReadable]
  | fulfilled r =>
    by_cases hb : r.data.isNullish = true <;>
      simp [createRoadmap, Js.tryFinally, Js.tryCatch, Js.bind_eq, Js.pure_eq, Js.andThen,
        Js.ret, Js.raise, axiosCall, getProp, setRoadmap, setLoading, toastSuccess, toastError,
        Outcome.bodyReadable, hb]

/-- Past its guards, the whole run of handleGenerateRoadmap: the profile save
returns normally whether it succeeded or failed, createRoadmap runs on the
state the save left, both requests are sent, the profile one first, and the
page navigates to "/roadmap" exactly when createRoadmap returned
`{ success: true }`. -/
theorem handleGenerateRoadmap_settled_run (saveNet createNet : Outcome)
    (p : ProfilePage) (ht : p.formData.targetRole.truthy = true) (hs : p.skills ≠ []) :
    (handleSaveProfile saveNet { p with generating := true }).1 = Except.ok () ∧
    (handleGenerateRoadmap saveNet createNet p).1 = Except.ok () ∧
    (handleGenerateRoadmap saveNet createNet p).2.world
      = (createRoadmap p.formData.targetRole createNet
          (handleSaveProfile saveNet { p with generating := true }).2.world).2 ∧
    (handleGenerateRoadmap saveNet createNet p).2.world.requests
      = p.world.requests ++
        [⟨"PUT", "/api/users/profile", profileBody p⟩,
         ⟨"POST", "/api/roadmaps", JsVal.obj [("targetRole", p.formData.targetRole)]⟩] ∧
    (((createRoadmap p.formData.targetRole createNet
          (handleSaveProfile saveNet { p with generating := true }).2.world).1
        = Except.ok OpResult.success ∧
      (handleGenerateRoadmap saveNet createNet p).2.navigations
        = p.navigations ++ ["/roadmap"]) ∨
     ((∃ m, (createRoadmap p.formData.targetRole createNet
          (handleSaveProfile saveNet { p with generating := true }).2.world).1
        = Except.ok (OpResult.failure m)) ∧
      (handleGenerateRoadmap saveNet createNet p).2.navigations = p.navigations)) ∧
    (handleGenerateRoadmap saveNet createNet p).2.generating = false := by
  obtain ⟨hs1, hs2, hs3, _⟩ := handleSaveProfile_settles saveNet { p with generating := true }
  obtain ⟨hc1, hc2⟩ := createRoadmap_settles p.formData.targetRole createNet
    (handleSaveProfile saveNet { p with generating := true }).2.world
  have hbody : profileBody { p with generating := true } = profileBody p := rfl
  rw [handleGenerateRoadmap_past_guards saveNet createNet p ht hs]
  rcases hc2 with ⟨hok, _⟩ | ⟨⟨m, hfail⟩, _⟩
  · generalize hq : createRoadmap p.formData.targetRole createNet
      (handleSaveProfile saveNet { p with generating := true }).2.world = c at hok hc1 ⊢
    obtain ⟨c1, c2⟩ := c
    simp only at hok hc1
    subst hok
    refine ⟨hs1, rfl, rfl, ?_, Or.inl ⟨rfl, ?_⟩, rfl⟩
    · simp [hc1, hs2, hbody]
    · simp [OpResult.isSuccess, hs3]
  · generalize hq : createRoadmap p.formData.targetRole createNet
      (handleSaveProfile saveNet { p with generating := true }).2.world = c at hfail hc1 ⊢
    obtain ⟨c1, c2⟩ := c
    simp only at hfail hc1
    subst hfail
    refine ⟨hs1, rfl, rfl, ?_, Or.inr ⟨⟨m, rfl⟩, ?_⟩, rfl⟩
    · simp [hc1, hs2, hbody]
    · simp [OpResult.isSuccess, hs3]

/-- A call of createRoadmap is its issue followed by its settlement. -/
theorem createRoadmap_eq_issue_settle (targetRole : JsVal) (net : Outcome) (w : World) :
    createRoadmap targetRole net w
      = createRoadmap_settle net (createRoadmap_issue targetRole w).2 := by
  cases net with
  | rejected resp =>
    simp [createRoadmap, createRoadmap_settle, createRoadmap_issue, Js.tryFinally, Js.tryCatch,
      Js.bind_eq, Js.pure_eq, Js.andThen, Js.ret, axiosCall, axiosSend, awaitResponse,
      setLoading, toastError]
  | fulfilled r =>
    by_cases hb : r.data.isNullish = true <;>
      simp [createRoadmap, createRoadmap_settle, createRoadmap_issue, Js.tryFinally,
        Js.tryCatch, Js.bind_eq, Js.pure_eq, Js.andThen, Js.ret, Js.raise, axiosCall, axiosSend,
        awaitResponse, getProp, setRoadmap, setLoading, toastSuccess, toastError, hb]

/-- A call of handleSaveProfile is its issue followed by its settlement. -/
theorem handleSaveProfile_eq_issue_settle (net : Outcome) (p : ProfilePage) :
    handleSaveProfile net p = handleSaveProfile_settle net (handleSaveProfile_issue p).2 := by
  cases net with
  | rejected resp =>
    simp [handleSaveProfile, handleSaveProfile_settle, handleSaveProfile_issue,
      PageJs.page_bind_eq, PageJs.andThen, PageJs.tryCatch, PageJs.lift, axiosCall, axiosSend,
      awaitResponse, toastError]
  | fulfilled r =>
    by_cases hb : r.data.isNullish = true <;>
      simp [handleSaveProfile, handleSaveProfile_settle, handleSaveProfile_issue,
        PageJs.page_bind_eq, PageJs.andThen, PageJs.tryCatch, PageJs.lift, setEditing,
        updateUser, Js.ret, Js.raise, axiosCall, axiosSend, awaitResponse, getProp,
        toastSuccess, toastError, hb]

/-- Past its guards, the first part of handleGenerateRoadmap marks the page as
generating, sends the profile request and waits. -/
theorem handleGenerateRoadmap_start_past_guards (p : ProfilePage)
    (ht : p.formData.targetRole.truthy = true) (hs : p.skills ≠ []) :
    handleGenerateRoadmap_start p
      = (Except.ok true,
          { p with generating := true,
                   world := { p.world with requests := p.world.requests ++
                     [⟨"PUT", "/api/users/profile", profileBody p⟩] } }) := by
  have hlen : (p.skills.length == 0) = false := by
    cases hp : p.skills with
    | nil => exact absurd hp hs
    | cons a l => rfl
  simp [handleGenerateRoadmap_start, ht, hlen, PageJs.page_bind_eq, PageJs.page_pure_eq,
    PageJs.andThen, PageJs.ret, PageJs.lift, setGenerating, handleSaveProfile_issue, axiosSend,
    profileBody]

/-- Past its guards, a run of handleGenerateRoadmap is its three parts, each
resumed by the settlement it waits for. -/
theorem handleGenerateRoadmap_eq_steps (saveNet createNet : Outcome) (p : ProfilePage)
    (ht : p.formData.targetRole.truthy = true) (hs : p.skills ≠ []) :
    handleGenerateRoadmap saveNet createNet p
      = handleGenerateRoadmap_afterCreate createNet
          (handleGenerateRoadmap_afterSave saveNet (handleGenerateRoadmap_start p).2).2 := by
  have hlen : (p.skills.length == 0) = false := by
    cases hp : p.skills with
    | nil => exact absurd hp hs
    | cons a l => rfl
  rw [handleGenerateRoadmap_start_past_guards p ht hs]
  cases saveNet with
  | rejected sresp =>
    cases createNet with
    | rejected cresp =>
      simp [handleGenerateRoadmap, handleSaveProfile, handleGenerateRoadmap_afterSave,
        handleGenerateRoadmap_afterCreate, handleSaveProfile_settle, createRoadmap_issue,
        createRoadmap_settle, ht, hlen, PageJs.page_bind_eq, PageJs.page_pure_eq,
        PageJs.andThen, PageJs.ret, PageJs.tryCatch, PageJs.lift, setGenerating, navigate,
        createRoadmap, Js.tryFinally, Js.tryCatch, Js.bind_eq, Js.pure_eq, Js.andThen, Js.ret,
        axiosCall, axiosSend, awaitResponse, setLoading, toastError, profileBody,
        OpResult.isSuccess]
    | fulfilled cr =>
      by_cases hc : cr.data.isNullish = true <;>
        simp [handleGenerateRoadmap, handleSaveProfile, handleGenerateRoadmap_afterSave,
          handleGenerateRoadmap_afterCreate, handleSaveProfile_settle, createRoadmap_issue,
          createRoadmap_settle, ht, hlen, PageJs.page_bind_eq, PageJs.page_pure_eq,
          PageJs.andThen, PageJs.ret, PageJs.tryCatch, PageJs.lift, setGenerating, navigate,
          createRoadmap, Js.tryFinally, Js.tryCatch, Js.bind_eq, Js.pure_eq, Js.andThen, Js.ret,
          Js.raise, axiosCall, axiosSend, awaitResponse, getProp, setRoadmap, setLoading,
          toastSuccess, toastError, profileBody, OpResult.isSuccess, hc]
  | fulfilled sr =>
    by_cases hsn : sr.data.isNullish = true <;>
    cases createNet with
    | rejected cresp =>
      simp [handleGenerateRoadmap, handleSaveProfile, handleGenerateRoadmap_afterSave,
        handleGenerateRoadmap_afterCreate, handleSaveProfile_settle, createRoadmap_issue,
        createRoadmap_settle, ht, hlen, PageJs.page_bind_eq, PageJs.page_pure_eq,
        PageJs.andThen, PageJs.ret, PageJs.tryCatch, PageJs.lift, setGenerating, setEditing,
        updateUser, navigate, createRoadmap, Js.tryFinally, Js.tryCatch, Js.bind_eq,
        Js.pure_eq, Js.andThen, Js.ret, Js.raise, axiosCall, axiosSend, awaitResponse, getProp,
        setLoading, toastSuccess, toastError, profileBody, OpResult.isSuccess, hsn]
    | fulfilled cr =>
      by_cases hc : cr.data.isNullish = true <;>
        simp [handleGenerateRoadmap, handleSaveProfile, handleGenerateRoadmap_afterSave,
          handleGenerateRoadmap_afterCreate, handleSaveProfile_settle, createRoadmap_issue,
          createRoadmap_settle, ht, hlen, PageJs.page_bind_eq, PageJs.page_pure_eq,
          PageJs.andThen, PageJs.ret, PageJs.tryCatch, PageJs.lift, setGenerating, setEditing,
          updateUser, navigate, createRoadmap, Js.tryFinally, Js.tryCatch, Js.bind_eq,
          Js.pure_eq, Js.andThen, Js.ret, Js.raise, axiosCall, axiosSend, awaitResponse,
          getProp, setRoadmap, setLoading, toastSuccess, toastError, profileBody,
          OpResult.isSuccess, hsn, hc]

/-- When the profile request settles, the second part of handleGenerateRoadmap
finishes the save (its one toast, of success or of failure), returns normally
and sends the creation request. -/
theorem handleGenerateRoadmap_afterSave_sends_create (saveNet : Outcome) (q : ProfilePage) :
    (handleGenerateRoadmap_afterSave saveNet q).1 = Except.ok () ∧
    (handleGenerateRoadmap_afterSave saveNet q).2.world.toasts
      = q.world.toasts ++
        [if saveNet.bodyReadable then
            ⟨ToastKind.success, JsVal.str "Profile updated successfully!"⟩
          else ⟨ToastKind.error, JsVal.str "Failed to update profile"⟩] ∧
    (handleGenerateRoadmap_afterSave saveNet q).2.world.requests
      = q.world.requests ++
        [⟨"POST", "/api/roadmaps", JsVal.obj [("targetRole", q.formData.targetRole)]⟩] := by
  cases saveNet with
  | rejected resp =>
    simp [handleGenerateRoadmap_afterSave, handleSaveProfile_settle, createRoadmap_issue,
      PageJs.page_bind_eq, PageJs.andThen, PageJs.tryCatch, PageJs.lift, Js.bind_eq, Js.andThen,
      axiosSend, awaitResponse, setLoading, toastError, Outcome.bodyReadable]
  | fulfilled r =>
    by_cases hb : r.data.isNullish = true <;>
      simp [handleGenerateRoadmap_afterSave, handleSaveProfile_settle, createRoadmap_issue,
        PageJs.page_bind_eq, PageJs.andThen, PageJs.tryCatch, PageJs.lift, setEditing,
        updateUser, Js.bind_eq, Js.andThen, Js.ret, Js.raise, axiosSend, awaitResponse, getProp,
        setLoading, toastSuccess, toastError, Outcome.bodyReadable, hb]

/-- The settlement of the profile save returns normally and sends nothing, and
the second part of handleGenerateRoadmap is that settlement followed by the
issue of createRoadmap. -/
theorem handleGenerateRoadmap_afterSave_eq (saveNet : Outcome) (q : ProfilePage) :
    (handleSaveProfile_settle saveNet q).1 = Except.ok () ∧
    (handleSaveProfile_settle saveNet q).2.world.requests = q.world.requests ∧
    (handleSaveProfile_settle saveNet q).2.formData = q.formData ∧
    handleGenerateRoadmap_afterSave saveNet q
      = PageJs.lift (createRoadmap_issue q.formData.targetRole)
          (handleSaveProfile_settle saveNet q).2 := by
  cases saveNet with
  | rejected resp =>
    simp [handleGenerateRoadmap_afterSave, handleSaveProfile_settle, PageJs.page_bind_eq,
      PageJs.andThen, PageJs.tryCatch, PageJs.lift, awaitResponse, toastError]
  | fulfilled r =>
    by_cases hb : r.data.isNullish = true <;>
      simp [handleGenerateRoadmap_afterSave, handleSaveProfile_settle, PageJs.page_bind_eq,
        PageJs.andThen, PageJs.tryCatch, PageJs.lift, setEditing, updateUser, Js.ret, Js.raise,
        awaitResponse, getProp, toastSuccess, toastError, hb]

/-- C20: past its guards, handleGenerateRoadmap first sends the profile request
alone and waits: while the save is unsettled no creation request has been
sent, and none has when the save has just finished settling.  The part that
runs when the save settles finishes the save, returns normally whether the
save succeeded or failed, and only then sends the creation request.  These parts and the one resumed by the creation's
settlement make up the handler, which navigates to "/roadmap" exactly when
createRoadmap returned `{ success: true }`, and not otherwise. -/
theorem handleGenerateRoadmap_create_after_save_settled (saveNet createNet : Outcome)
    (p : ProfilePage) (ht : p.formData.targetRole.truthy = true) (hs : p.skills ≠ []) :
    handleGenerateRoadmap_start p
      = (Except.ok true,
          { p with generating := true,
                   world := { p.world with requests := p.world.requests ++
                     [⟨"PUT", "/api/users/profile", profileBody p⟩] } }) ∧
    (handleSaveProfile_settle saveNet (handleGenerateRoadmap_start p).2).1 = Except.ok () ∧
    (handleSaveProfile_settle saveNet (handleGenerateRoadmap_start p).2).2.world.requests
      = p.world.requests ++ [⟨"PUT", "/api/users/profile", profileBody p⟩] ∧
    handleGenerateRoadmap_afterSave saveNet (handleGenerateRoadmap_start p).2
      = PageJs.lift (createRoadmap_issue p.formData.targetRole)
          (handleSaveProfile_settle saveNet (handleGenerateRoadmap_start p).2).2 ∧
    (handleGenerateRoadmap_afterSave saveNet (handleGenerateRoadmap_start p).2).1
      = Except.ok () ∧
    (handleGenerateRoadmap_afterSave saveNet (handleGenerateRoadmap_start p).2).2.world.toasts
      = p.world.toasts ++
        [if saveNet.bodyReadable then
            ⟨ToastKind.success, JsVal.str "Profile updated successfully!"⟩
          else ⟨ToastKind.error, JsVal.str "Failed to update profile"⟩] ∧
    (handleGenerateRoadmap_afterSave saveNet (handleGenerateRoadmap_start p).2).2.world.requests
      = p.world.requests ++
        [⟨"PUT", "/api/users/profile", profileBody p⟩,
         ⟨"POST", "/api/roadmaps", JsVal.obj [("targetRole", p.formData.targetRole)]⟩] ∧
    handleGenerateRoadmap saveNet createNet p
      = handleGenerateRoadmap_afterCreate createNet
          (handleGenerateRoadmap_afterSave saveNet (handleGenerateRoadmap_start p).2).2 ∧
    (handleSaveProfile saveNet { p with generating := true }).1 = Except.ok () ∧
    (handleGenerateRoadmap saveNet createNet p).1 = Except.ok () ∧
    (handleGenerateRoadmap saveNet createNet p).2.world
      = (createRoadmap p.formData.targetRole createNet
          (handleSaveProfile saveNet { p with generating := true }).2.world).2 ∧
    (handleGenerateRoadmap saveNet createNet p).2.world.requests
      = p.world.requests ++
        [⟨"PUT", "/api/users/profile", profileBody p⟩,
         ⟨"POST", "/api/roadmaps", JsVal.obj [("targetRole", p.formData.targetRole)]⟩] ∧
    (((createRoadmap p.formData.targetRole createNet
          (handleSaveProfile saveNet { p with generating := true }).2.world).1
        = Except.ok OpResult.success ∧
      (handleGenerateRoadmap saveNet createNet p).2.navigations
        = p.navigations ++ ["/roadmap"]) ∨
     ((∃ m, (createRoadmap p.formData.targetRole createNet
          (handleSaveProfile saveNet { p with generating := true }).2.world).1
        = Except.ok (OpResult.failure m)) ∧
      (handleGenerateRoadmap saveNet createNet p).2.navigations = p.navigations)) ∧
    (handleGenerateRoadmap saveNet createNet p).2.generating = false := by
  have hstart := handleGenerateRoadmap_start_past_guards p ht hs
  obtain ⟨h1, h2, h3⟩ :=
    handleGenerateRoadmap_afterSave_sends_create saveNet (handleGenerateRoadmap_start p).2
  obtain ⟨g1, g2, _, g4⟩ :=
    handleGenerateRoadmap_afterSave_eq saveNet (handleGenerateRoadmap_start p).2
  refine ⟨hstart, g1, ?_, ?_, h1, ?_, ?_,
    handleGenerateRoadmap_eq_steps saveNet createNet p ht hs,
    handleGenerateRoadmap_settled_run saveNet createNet p ht hs⟩
  · rw [g2, hstart]
  · rw [g4, hstart]
  · rw [h2, hstart]
  · rw [h3, hstart]
    simp

/-- Witness of C20: on the sample page only the profile request is out while
the save is unsettled; the save then fails, the creation request goes out, the
creation succeeds and the page navigates to the roadmap. -/
theorem handleGenerateRoadmap_create_after_save_settled_witness :
    sampleProfilePage.formData.targetRole.truthy = true ∧ sampleProfilePage.skills ≠ [] ∧
    (handleGenerateRoadmap_start sampleProfilePage).2.world.requests
      = [⟨"PUT", "/api/users/profile", profileBody sampleProfilePage⟩] ∧
    (handleGenerateRoadmap_afterSave (Outcome.rejected none)
        (handleGenerateRoadmap_start sampleProfilePage).2).2.world.requests
      = sampleProfilePage.world.requests ++
        [⟨"PUT", "/api/users/profile", profileBody sampleProfilePage⟩,
         ⟨"POST", "/api/roadmaps",
            JsVal.obj [("targetRole", sampleProfilePage.formData.targetRole)]⟩] ∧
    (handleGenerateRoadmap (Outcome.rejected none) (Outcome.fulfilled sampleResponse)
        sampleProfilePage).1 = Except.ok () ∧
    (handleGenerateRoadmap (Outcome.rejected none) (Outcome.fulfilled sampleResponse)
        sampleProfilePage).2.generating = false :=
  by
  have h := handleGenerateRoadmap_create_after_save_settled (Outcome.rejected none)
    (Outcome.fulfilled sampleResponse) sampleProfilePage rfl (by simp [sampleProfilePage])
  obtain ⟨h1, _, _, _, _, _, h7, _, _, h10, _, _, _, h14⟩ := h
  refine ⟨rfl, by simp [sampleProfilePage], ?_, h7, h10, h14⟩
  rw [h1]
  rfl

/-! ## The loading flag -/

/-- What each operation does to `loading`, however its request settles:
fetchRoadmap and createRoadmap leave it false, the other three leave it as it
was. -/
theorem operations_loading (net : Outcome) (w : World) :
    (fetchRoadmap net w).2.loading = false ∧
    (∀ targetRole, (createRoadmap targetRole net w).2.loading = false) ∧
    (∀ weekId taskId completed,
      (updateTaskCompletion weekId taskId completed net w).2.loading = w.loading) ∧
    (deleteRoadmap net w).2.loading = w.loading ∧
    (fetchCurrentWeek net w).2.loading = w.loading := by
  cases net with
  | rejected resp =>
    refine ⟨?_, ?_, ?_, ?_, ?_⟩
    · by_cases h : statusIsNot404 (JsError.axiosError resp) = true <;>
        simp [fetchRoadmap, Js.tryFinally, Js.tryCatch, Js.bind_eq, Js.pure_eq, Js.andThen,
          Js.ret, axiosCall, setRoadmap, setLoading, consoleError, h]
    · simp [createRoadmap, Js.tryFinally, Js.tryCatch, Js.bind_eq, Js.pure_eq, Js.andThen,
        Js.ret, axiosCall, setLoading, toastError]
    · simp [updateTaskCompletion, Js.tryCatch, Js.bind_eq, Js.pure_eq, Js.andThen, Js.ret,
        axiosCall, toastError]
    · simp [deleteRoadmap, Js.tryCatch, Js.bind_eq, Js.pure_eq, Js.andThen, Js.ret, axiosCall,
        toastError]
    · simp [fetchCurrentWeek, Js.tryCatch, Js.bind_eq, Js.andThen, axiosCall, consoleError]
  | fulfilled r =>
    refine ⟨?_, ?_, ?_, ?_, ?_⟩
    · by_cases hb : r.data.isNullish = true <;>
        simp [fetchRoadmap, Js.tryFinally, Js.tryCatch, Js.bind_eq, Js.pure_eq, Js.andThen,
          Js.ret, Js.raise, axiosCall, getProp, setRoadmap, setLoading, consoleError,
          statusIsNot404, JsError.response, hb]
    · by_cases hb : r.data.isNullish = true <;>
        simp [createRoadmap, Js.tryFinally, Js.tryCatch, Js.bind_eq, Js.pure_eq, Js.andThen,
          Js.ret, Js.raise, axiosCall, getProp, setRoadmap, setLoading, toastSuccess,
          toastError, hb]
    · by_cases hb : r.data.isNullish = true <;>
        simp [updateTaskCompletion, Js.tryCatch, Js.bind_eq, Js.pure_eq, Js.andThen, Js.ret,
          Js.raise, axiosCall, getProp, setRoadmap, toastSuccess, toastError, hb]
    · simp [deleteRoadmap, Js.tryCatch, Js.bind_eq, Js.pure_eq, Js.andThen, Js.ret, axiosCall,
        setRoadmap, setCurrentWeek, toastSuccess]
    · by_cases hb : r.data.isNullish = true <;>
        simp [fetchCurrentWeek, Js.tryCatch, Js.bind_eq, Js.andThen, Js.ret, Js.raise,
          axiosCall, getProp, setCurrentWeek, consoleError, hb]

/-- A provider whose `loading` is false has it false after any sequence of
settled calls. -/
theorem runCalls_loading (cs : List Call) :
    ∀ w : World, w.loading = false → (runCalls cs w).loading = false := by
  induction cs with
  | nil => intro w h; exact h
  | cons c cs ih =>
    intro w h
    refine ih (c.run w) ?_
    cases c with
    | fetchRoadmap net => exact (operations_loading net w).1
    | fetchCurrentWeek net => exact (operations_loading net w).2.2.2.2.trans h
    | createRoadmap targetRole net => exact (operations_loading net w).2.1 targetRole
    | updateTaskCompletion weekId taskId completed net =>
      exact ((operations_loading net w).2.2.1 weekId taskId completed).trans h
    | deleteRoadmap net => exact (operations_loading net w).2.2.2.1.trans h

/-- C21: the loading flag never sticks.  Whatever the prior world and however
the request settles (success, 404, any other failure), `loading` is false
after fetchRoadmap and after createRoadmap, and updateTaskCompletion,
deleteRoadmap and fetchCurrentWeek leave `loading` as it was.  Hence from
`loading = false` it is false after any sequence of settled calls. -/
theorem loading_never_sticks :
    (∀ (net : Outcome) (w : World), (fetchRoadmap net w).2.loading = false) ∧
    (∀ (targetRole : JsVal) (net : Outcome) (w : World),
      (createRoadmap targetRole net w).2.loading = false) ∧
    (∀ (weekId taskId : String) (completed : Bool) (net : Outcome) (w : World),
      (updateTaskCompletion weekId taskId completed net w).2.loading = w.loading) ∧
    (∀ (net : Outcome) (w : World), (deleteRoadmap net w).2.loading = w.loading) ∧
    (∀ (net : Outcome) (w : World), (fetchCurrentWeek net w).2.loading = w.loading) ∧
    (∀ (cs : List Call) (w : World), w.loading = false → (runCalls cs w).loading = false) :=
  ⟨fun net w => (operations_loading net w).1,
    fun targetRole net w => (operations_loading net w).2.1 targetRole,
    fun weekId taskId completed net w => (operations_loading net w).2.2.1 weekId taskId completed,
    fun net w => (operations_loading net w).2.2.2.1,
    fun net w => (operations_loading net w).2.2.2.2,
    runCalls_loading⟩

/-- Witness of C21: a failed fetch, a creation, a task update and a deletion
on a fresh provider leave `loading` false. -/
theorem loading_never_sticks_witness :
    (runCalls
      [Call.fetchRoadmap (Outcome.rejected (some ⟨500, JsVal.undefined⟩)),
        Call.createRoadmap (JsVal.str "Backend Developer") (Outcome.fulfilled sampleResponse),
        Call.updateTaskCompletion "week1" "task3" true (Outcome.rejected none),
        Call.deleteRoadmap (Outcome.fulfilled ⟨204, JsVal.str ""⟩)]
      World.initial).loading = false :=
  loading_never_sticks.2.2.2.2.2 _ World.initial rfl

/-! ## Redirects -/

/-- A logged-out visitor at "/login" is shown the Login page, whatever the
number of redirects allowed. -/
theorem followRedirects_login_logged_out (fuel : Nat) :
    followRedirects false false fuel "/login" = some (Element.page "Login", 0) := by
  cases fuel <;> simp [followRedirects, routes, PublicRoute]

/-- C22: the route table has no redirect loop.  With `loading` false, from
every path that has a route, following redirects ends at a page after at most
two redirects, for either value of `isAuthenticated` and however many more
redirects would be allowed.  From "/" it ends at the Dashboard page after one
redirect when authenticated and at the Login page after two when not. -/
theorem redirects_end_at_a_page (isAuthenticated : Bool) (more : Nat) :
    (∀ path ∈ definedPaths, ∃ name n, n ≤ 2 ∧
      followRedirects isAuthenticated false (more + 2) path = some (Element.page name, n)) ∧
    followRedirects true false (more + 2) "/" = some (Element.page "Dashboard", 1) ∧
    followRedirects false false (more + 2) "/" = some (Element.page "Login", 2) := by
  refine ⟨fun path hpath => ?_, ?_, ?_⟩
  · simp only [definedPaths, List.mem_cons, List.mem_singleton, List.not_mem_nil,
      or_false] at hpath
    cases isAuthenticated <;> rcases hpath with h | h | h | h | h | h <;> subst h <;>
      simp [followRedirects, routes, ProtectedRoute, PublicRoute,
        followRedirects_login_logged_out]
  · simp [followRedirects, routes, ProtectedRoute, PublicRoute,
        followRedirects_login_logged_out]
  · simp [followRedirects, routes, ProtectedRoute, PublicRoute,
        followRedirects_login_logged_out]

/-- Witness of C22: a logged-out visitor asking for the profile page ends at
the Login page after one redirect. -/
theorem redirects_end_at_a_page_witness :
    ∃ name n, n ≤ 2 ∧
      followRedirects false false (0 + 2) "/profile" = some (Element.page name, n) :=
  (redirects_end_at_a_page false 0).1 "/profile" (by simp [definedPaths])

end SkillFrontend
